/-
  Verification of the MedIntel medical research platform backend.

  This file gives a shallow embedding, in Lean 4, of the parts of the
  JavaScript source that the specification's claims are about:

  * the PHI scrubber `sanitizePHI` of
    `backend/services/hipaa-compliance.service.js` (nine regular-expression
    categories applied in order, detection against the original text and
    global replacement on the partially sanitized text);
  * the session issuing/validation pair `createMedicalSession` /
    `validateMedicalSession` of the same service (JWT second-granularity
    expiry plus millisecond-granularity session expiry);
  * the sliding-window rate limiter `checkRateLimit` and the `rateLimit`
    middleware of the HIPAA audit middleware;
  * the intent classifier `MedicalIntentAnalyzer` of
    `backend/utils/medical-intent.util.js`;
  * the LLM adapter `MedicalAIService.generateMedicalResponse` with its
    primary/fallback control flow and `generateSafetyResponse`;
  * the chat controller's `generateSafetyAlerts` and the response assembly
    of `handleMedicalChat`.

  JavaScript strings are modelled as `List Char` (ASCII inputs), numbers
  appearing in confidences as `ℚ`, timestamps as `ℤ` (milliseconds).
  Regular expressions are embedded as an explicit backtracking matcher
  (`Rx.mrun`) with JavaScript semantics: leftmost match, alternation tries
  the left branch first, quantifiers are greedy, `\b` is a word boundary
  on `[A-Za-z0-9_]`.  `String.prototype.replace` with a global regex
  replaces every non-overlapping leftmost match.
-/
import Mathlib

namespace MedIntel

/-! ### Characters and basic string helpers -/

/-- JavaScript `\w`: `[A-Za-z0-9_]`. -/
def isWordChar (c : Char) : Bool :=
  c.isAlpha || c.isDigit || c == '_'

/-- JavaScript `\s` (the whitespace class used by the source's regexes);
ASCII part plus the Unicode space code points JavaScript includes. -/
def isJsSpace (c : Char) : Bool :=
  c == ' ' || c == '\t' || c == '\n' || c == '\r' ||
  c.toNat == 0x0b || c.toNat == 0x0c ||
  c.toNat == 0xa0 || c.toNat == 0x1680 ||
  (0x2000 ≤ c.toNat && c.toNat ≤ 0x200a) ||
  c.toNat == 0x2028 || c.toNat == 0x2029 || c.toNat == 0x202f ||
  c.toNat == 0x205f || c.toNat == 0x3000 || c.toNat == 0xfeff

/-- ASCII lower-casing, as `String.prototype.toLowerCase` acts on ASCII. -/
def lowerChar (c : Char) : Char := c.toLower

def lowerStr (s : List Char) : List Char := s.map lowerChar

/-- `pat` occurs at the head of `s`. -/
def headMatches : List Char → List Char → Bool
  | [], _ => true
  | _ :: _, [] => false
  | p :: ps, c :: cs => p == c && headMatches ps cs

/-- JavaScript `String.prototype.includes`: `sub` occurs somewhere in `s`. -/
def strIncludes (s sub : List Char) : Bool :=
  match s with
  | [] => headMatches sub []
  | _ :: cs => headMatches sub s || strIncludes cs sub

/-- Convenience: `includes` on Lean `String`s. -/
def jsIncludes (s sub : String) : Bool := strIncludes s.data sub.data

/-- JavaScript number division on the rationals involved here, written via
`Rat.div` (definitionally the `/` of `ℚ`, see `ratDiv_eq_div`). -/
def ratDiv (a b : ℚ) : ℚ := Rat.div a b

/-- `Math.min` on two numbers (also `min` of `ℚ`, see `jsMin_eq_min`) -/
def jsMin (a b : ℚ) : ℚ := if a ≤ b then a else b

/-- a JavaScript integer-valued number (also the cast `ℕ → ℚ`, see
`natQ_eq_cast`) -/
def natQ (n : Nat) : ℚ := mkRat n 1

/-! ### A backtracking regular-expression engine with JavaScript semantics

The source uses nine fixed regexes.  We embed them via an explicit AST and
a fuelled backtracking matcher.  The matcher is continuation-passing:
`mrun fuel r prev s k` tries to match `r` at the start of `s` (with `prev`
the character immediately before `s`, for `\b`), calling `k` on every way
of matching, in the order a JavaScript backtracking engine would try them,
and returns the first success.  Fuel only bounds recursion depth; a match
of length `L` in a pattern of size `P` needs at most about `L + P` fuel
per backtracking branch, so `s.length + 500` is far more than enough for
the source's patterns. -/

inductive Rx where
  /-- matches the empty string -/
  | eps : Rx
  /-- a single character satisfying the class predicate -/
  | cls : (Char → Bool) → Rx
  | seq : Rx → Rx → Rx
  /-- alternation; the left branch is preferred, as in JavaScript -/
  | alt : Rx → Rx → Rx
  /-- greedy repetition: at least `min` copies, at most `max` when given -/
  | rep : Rx → Nat → Option Nat → Rx
  /-- the `\b` word-boundary assertion -/
  | wordB : Rx

namespace Rx

def mrun (fuel : Nat) (r : Rx) (prev : Option Char) (s : List Char)
    (k : Option Char → List Char → Option (List Char)) : Option (List Char) :=
  match fuel with
  | 0 => none
  | fuel + 1 =>
    match r with
    | .eps => k prev s
    | .cls p =>
      match s with
      | [] => none
      | c :: cs => if p c then k (some c) cs else none
    | .seq a b => mrun fuel a prev s (fun p' s' => mrun fuel b p' s' k)
    | .alt a b =>
      match mrun fuel a prev s k with
      | some res => some res
      | none => mrun fuel b prev s k
    | .rep a min max =>
      match min with
      | m + 1 =>
        mrun fuel a prev s
          (fun p' s' => mrun fuel (.rep a m (max.map (· - 1))) p' s' k)
      | 0 =>
        match max with
        | some 0 => k prev s
        | _ =>
          match mrun fuel a prev s
              (fun p' s' => mrun fuel (.rep a 0 (max.map (· - 1))) p' s' k) with
          | some res => some res
          | none => k prev s
    | .wordB =>
      let before := match prev with | some c => isWordChar c | none => false
      let after := match s with | c :: _ => isWordChar c | [] => false
      if before != after then k prev s else none

/-- Try to match `r` anchored at the start of `s`; on success return the
remaining suffix after the (backtracking-preferred) match. -/
def tryAt (r : Rx) (prev : Option Char) (s : List Char) : Option (List Char) :=
  mrun (s.length + 500) r prev s (fun _ s' => some s')

/-- Does `r` match anywhere in `s` (with `prev` the character before `s`)?
This is `text.match(pattern) !== null` for a global pattern. -/
def hasMatchFrom (r : Rx) (prev : Option Char) (s : List Char) : Bool :=
  match s with
  | [] => (tryAt r prev []).isSome
  | c :: cs => (tryAt r prev s).isSome || hasMatchFrom r (some c) cs

def hasMatch (r : Rx) (s : List Char) : Bool := hasMatchFrom r none s

/-- `String.prototype.replace` with a global regex: scan left to right,
replace every leftmost non-overlapping match by `token`, resume after the
matched text.  `prev` is the character just before `s` in the original
string (word boundaries are judged against the original text). -/
def replaceAllGo (r : Rx) (token : List Char) :
    Nat → Option Char → List Char → List Char
  | 0, _, s => s
  | fuel + 1, prev, s =>
    match tryAt r prev s with
    | some rem =>
      let n := s.length - rem.length
      if n = 0 then
        -- a zero-length match: emit the token and advance one character
        match s with
        | [] => token
        | c :: cs => token ++ c :: replaceAllGo r token fuel (some c) cs
      else
        let consumed := s.take n
        let prev' := match consumed.reverse with
          | [] => prev
          | c :: _ => some c
        token ++ replaceAllGo r token fuel prev' rem
    | none =>
      match s with
      | [] => []
      | c :: cs => c :: replaceAllGo r token fuel (some c) cs

def replaceAll (r : Rx) (token : List Char) (s : List Char) : List Char :=
  replaceAllGo r token (s.length + 1) none s

/-! Pattern-building helpers. -/

/-- a literal character -/
def chr (c : Char) : Rx := .cls (· == c)

/-- a case-insensitive literal character (for the `/i` patterns) -/
def chrI (c : Char) : Rx := .cls (fun x => lowerChar x == lowerChar c)

def seqList : List Rx → Rx
  | [] => .eps
  | [r] => r
  | r :: rs => .seq r (seqList rs)

/-- a literal string -/
def lit (s : String) : Rx := seqList (s.data.map chr)

/-- a case-insensitive literal string -/
def litI (s : String) : Rx := seqList (s.data.map chrI)

def altList : List Rx → Rx
  | [] => .cls (fun _ => false)
  | [r] => r
  | r :: rs => .alt r (altList rs)

def opt (r : Rx) : Rx := .rep r 0 (some 1)

/-- `\d` -/
def digit : Rx := .cls Char.isDigit

/-- `\d{n}` -/
def digits (n : Nat) : Rx := .rep digit n (some n)

/-- `\s` -/
def space : Rx := .cls isJsSpace

end Rx

/-! ### The PHI detection patterns of `initializePHIPatterns`
(hipaa-compliance.service.js lines 47–60), in source order. -/

open Rx in
/-- `ssn: /\b\d{3}-\d{2}-\d{4}\b/g` -/
def ssnPat : Rx :=
  seqList [.wordB, digits 3, chr '-', digits 2, chr '-', digits 4, .wordB]

open Rx in
/-- `phone: /(\+?1[-.\s]?)?\(?\d{3}\)?[-.\s]?\d{3}[-.\s]?\d{4}/g` -/
def phonePat : Rx :=
  let sep : Rx := .cls (fun c => c == '-' || c == '.' || isJsSpace c)
  seqList [opt (seqList [opt (chr '+'), chr '1', opt sep]),
           opt (chr '('), digits 3, opt (chr ')'), opt sep,
           digits 3, opt sep, digits 4]

open Rx in
/-- `email: /\b[A-Za-z0-9._%+-]+@[A-Za-z0-9.-]+\.[A-Z|a-z]{2,}\b/g`
(note the literal `|` inside the final class, as written in the source) -/
def emailPat : Rx :=
  let localC : Rx := .cls (fun c =>
    c.isAlpha || c.isDigit || c == '.' || c == '_' || c == '%' || c == '+' || c == '-')
  let domainC : Rx := .cls (fun c => c.isAlpha || c.isDigit || c == '.' || c == '-')
  let tldC : Rx := .cls (fun c => c.isAlpha || c == '|')
  seqList [.wordB, .rep localC 1 none, chr '@', .rep domainC 1 none,
           chr '.', .rep tldC 2 none, .wordB]

open Rx in
/-- `mrn: /\b(MRN|mrn|medical record|record number):?\s*\d{6,12}\b/gi` -/
def mrnPat : Rx :=
  seqList [.wordB,
           altList [litI "MRN", litI "mrn", litI "medical record", litI "record number"],
           opt (chr ':'), .rep space 0 none, .rep digit 6 (some 12), .wordB]

open Rx in
/-- `dob: /\b\d{1,2}[\/\-]\d{1,2}[\/\-]\d{2,4}\b/g` -/
def dobPat : Rx :=
  let sep : Rx := .cls (fun c => c == '/' || c == '-')
  seqList [.wordB, .rep digit 1 (some 2), sep, .rep digit 1 (some 2), sep,
           .rep digit 2 (some 4), .wordB]

open Rx in
/-- `address: /\b\d+\s+[A-Za-z0-9\s,.-]+\s+(Street|St|Avenue|Ave|Road|Rd|Boulevard|Blvd|Lane|Ln|Drive|Dr|Court|Ct|Place|Pl)\b/gi` -/
def addressPat : Rx :=
  let addrC : Rx := .cls (fun c =>
    c.isAlpha || c.isDigit || isJsSpace c || c == ',' || c == '.' || c == '-')
  seqList [.wordB, .rep digit 1 none, .rep space 1 none, .rep addrC 1 none,
           .rep space 1 none,
           altList [litI "Street", litI "St", litI "Avenue", litI "Ave",
                    litI "Road", litI "Rd", litI "Boulevard", litI "Blvd",
                    litI "Lane", litI "Ln", litI "Drive", litI "Dr",
                    litI "Court", litI "Ct", litI "Place", litI "Pl"],
           .wordB]

open Rx in
/-- `zipCode: /\b\d{5}(-\d{4})?\b/g` -/
def zipPat : Rx :=
  seqList [.wordB, digits 5, opt (.seq (chr '-') (digits 4)), .wordB]

open Rx in
/-- `creditCard: /\b\d{4}[-\s]?\d{4}[-\s]?\d{4}[-\s]?\d{4}\b/g` -/
def creditCardPat : Rx :=
  let sep : Rx := .cls (fun c => c == '-' || isJsSpace c)
  seqList [.wordB, digits 4, opt sep, digits 4, opt sep, digits 4, opt sep,
           digits 4, .wordB]

open Rx in
/-- `names: /\b[A-Z][a-z]+\s+[A-Z][a-z]+\b/g` -/
def namesPat : Rx :=
  let upper : Rx := .cls Char.isUpper
  let lower : Rx := .cls Char.isLower
  seqList [.wordB, upper, .rep lower 1 none, .rep space 1 none,
           upper, .rep lower 1 none, .wordB]

/-- The pattern table of `initializePHIPatterns`, in object-literal order. -/
def phiPatterns : List (String × Rx) :=
  [("ssn", ssnPat), ("phone", phonePat), ("email", emailPat),
   ("mrn", mrnPat), ("dob", dobPat), ("address", addressPat),
   ("zipCode", zipPat), ("creditCard", creditCardPat), ("names", namesPat)]

/-! ### `sanitizePHI` (hipaa-compliance.service.js lines 195–230)

For each pattern, detection runs against the *original* text
(`text.match(pattern)`); when the pattern was detected, the global
replacement runs against the partially sanitized text
(`sanitizedText.replace(pattern, replacementText)`). -/

structure SanitizeResult where
  sanitized : List Char
  phiDetected : Bool
  /-- the categories that fired, in pattern order (`detectedPHI` types) -/
  phiTypes : List String
  deriving Repr, DecidableEq

def sanitizePHIGo (text : List Char) (token : List Char) :
    List (String × Rx) → List Char → List String → SanitizeResult
  | [], acc, types => ⟨acc, !types.isEmpty, types⟩
  | (ty, p) :: rest, acc, types =>
    if Rx.hasMatch p text then
      sanitizePHIGo text token rest (Rx.replaceAll p token acc) (types ++ [ty])
    else
      sanitizePHIGo text token rest acc types

/-- `sanitizePHI(text, replacementText = '[REDACTED]')` on string input. -/
def sanitizePHI (text : List Char) (token : List Char := "[REDACTED]".data) :
    SanitizeResult :=
  sanitizePHIGo text token phiPatterns text []

/-- `scrub`: the sanitized string only, i.e. `sanitizePHI(x).sanitized`. -/
def scrub (text : List Char) : List Char := (sanitizePHI text).sanitized

/-! ### SHA-256 and `hashData`

`hashData` (hipaa-compliance.service.js lines 235–237) is
`CryptoJS.SHA256(String(data)).toString().substring(0, 16)`: the first 16
characters of the lowercase-hex SHA-256 digest.  We embed SHA-256 (FIPS
180-4) over the byte values of the (ASCII) input string. -/

namespace Sha256

def w32 (n : Nat) : Nat := n % 4294967296

def rotr (n x : Nat) : Nat := w32 ((x >>> n) ||| (x <<< (32 - n)))

def not32 (x : Nat) : Nat := x ^^^ 4294967295

def bigSigma0 (x : Nat) : Nat := rotr 2 x ^^^ rotr 13 x ^^^ rotr 22 x
def bigSigma1 (x : Nat) : Nat := rotr 6 x ^^^ rotr 11 x ^^^ rotr 25 x
def smallSigma0 (x : Nat) : Nat := rotr 7 x ^^^ rotr 18 x ^^^ (x >>> 3)
def smallSigma1 (x : Nat) : Nat := rotr 17 x ^^^ rotr 19 x ^^^ (x >>> 10)

def ch (e f g : Nat) : Nat := (e &&& f) ^^^ (not32 e &&& g)
def maj (a b c : Nat) : Nat := (a &&& b) ^^^ (a &&& c) ^^^ (b &&& c)

def K : List Nat :=
  [1116352408, 1899447441, 3049323471, 3921009573, 961987163,
   1508970993, 2453635748, 2870763221, 3624381080, 310598401,
   607225278, 1426881987, 1925078388, 2162078206, 2614888103,
   3248222580, 3835390401, 4022224774, 264347078, 604807628,
   770255983, 1249150122, 1555081692, 1996064986, 2554220882,
   2821834349, 2952996808, 3210313671, 3336571891, 3584528711,
   113926993, 338241895, 666307205, 773529912, 1294757372,
   1396182291, 1695183700, 1986661051, 2177026350, 2456956037,
   2730485921, 2820302411, 3259730800, 3345764771, 3516065817,
   3600352804, 4094571909, 275423344, 430227734, 506948616,
   659060556, 883997877, 958139571, 1322822218, 1537002063,
   1747873779, 1955562222, 2024104815, 2227730452, 2361852424,
   2428436474, 2756734187, 3204031479, 3329325298]

def H0 : List Nat :=
  [1779033703, 3144134277, 1013904242, 2773480762,
   1359893119, 2600822924, 528734635, 1541459225]

/-- split into chunks of `n` elements (fuelled by the list length) -/
def chunksGo (n : Nat) : Nat → List α → List (List α)
  | 0, _ => []
  | _, [] => []
  | fuel + 1, l => l.take n :: chunksGo n fuel (l.drop n)

def chunks (n : Nat) (l : List α) : List (List α) := chunksGo n l.length l

/-- SHA-256 padding of a byte list -/
def pad (msg : List Nat) : List Nat :=
  let L := msg.length
  let k := (64 + 56 - ((L + 1) % 64)) % 64
  let bitLen := 8 * L
  msg ++ [0x80] ++ List.replicate k 0 ++
    (List.range 8).map (fun i => bitLen >>> (8 * (7 - i)) % 256)

/-- four big-endian bytes to a 32-bit word -/
def bytesToWord (bs : List Nat) : Nat :=
  bs.foldl (fun acc b => acc * 256 + b) 0

/-- extend 16 schedule words to 64 -/
def extendW : Nat → List Nat → List Nat
  | 0, ws => ws
  | fuel + 1, ws =>
    let n := ws.length
    let next := w32 (smallSigma1 (ws.getD (n - 2) 0) + ws.getD (n - 7) 0 +
                     smallSigma0 (ws.getD (n - 15) 0) + ws.getD (n - 16) 0)
    extendW fuel (ws ++ [next])

structure Hs where
  a : Nat
  b : Nat
  c : Nat
  d : Nat
  e : Nat
  f : Nat
  g : Nat
  h : Nat

def round (st : Hs) (kw : Nat × Nat) : Hs :=
  let t1 := w32 (st.h + bigSigma1 st.e + ch st.e st.f st.g + kw.1 + kw.2)
  let t2 := w32 (bigSigma0 st.a + maj st.a st.b st.c)
  ⟨w32 (t1 + t2), st.a, st.b, st.c, w32 (st.d + t1), st.e, st.f, st.g⟩

def compress (hv : List Nat) (block : List Nat) : List Nat :=
  let ws := extendW 48 ((chunks 4 block).map bytesToWord)
  let st0 : Hs := ⟨hv.getD 0 0, hv.getD 1 0, hv.getD 2 0, hv.getD 3 0,
                   hv.getD 4 0, hv.getD 5 0, hv.getD 6 0, hv.getD 7 0⟩
  let st := (List.zip K ws).foldl round st0
  [w32 (hv.getD 0 0 + st.a), w32 (hv.getD 1 0 + st.b),
   w32 (hv.getD 2 0 + st.c), w32 (hv.getD 3 0 + st.d),
   w32 (hv.getD 4 0 + st.e), w32 (hv.getD 5 0 + st.f),
   w32 (hv.getD 6 0 + st.g), w32 (hv.getD 7 0 + st.h)]

/-- SHA-256 digest (as 32 byte values) of a byte list -/
def digest (msg : List Nat) : List Nat :=
  let hv := (chunks 64 (pad msg)).foldl compress H0
  hv.foldr (fun w acc =>
    (w >>> 24) % 256 :: (w >>> 16) % 256 :: (w >>> 8) % 256 :: w % 256 :: acc) []

end Sha256

def hexDigits : List Char := "0123456789abcdef".data

def hexDigit (n : Nat) : Char := hexDigits.getD n '0'

/-- lowercase-hex encoding of a byte list -/
def toHex (bs : List Nat) : List Char :=
  bs.foldr (fun b acc => hexDigit (b / 16 % 16) :: hexDigit (b % 16) :: acc) []

/-- `hashData(data)`: first 16 hex characters of the SHA-256 of the string
(hipaa-compliance.service.js lines 235–237). -/
def hashData (s : List Char) : List Char :=
  (toHex (Sha256.digest (s.map Char.toNat))).take 16

/-! ### `checkRateLimit` (hipaa-compliance.service.js lines 285–321)

The per-service state is the `requestCounts` map from
`` `${identifier}-${endpoint}` `` keys to the list of stored request
timestamps, and `maxRequestsPerMinute` is the per-class cap `N`
(`MEDICAL_API_RATE_LIMIT_MAX`, default 50).  Timestamps are `ℤ`
milliseconds (`Date.now()`). -/

def alookup : List (List Char × α) → List Char → Option α
  | [], _ => none
  | (k, v) :: rest, key => if k = key then some v else alookup rest key

def aset : List (List Char × α) → List Char → α → List (List Char × α)
  | [], key, v => [(key, v)]
  | (k, w) :: rest, key, v =>
    if k = key then (key, v) :: rest else (k, w) :: aset rest key v

structure RateLimitResult where
  allowed : Bool
  remaining : Nat
  resetTime : Int
  deriving Repr, DecidableEq

/-- the `RATE_LIMIT_EXCEEDED` security event emitted on the reject path
(`logger.auditSecurityEvent('RATE_LIMIT_EXCEEDED', 'high', {...})`) -/
structure RateLimitAudit where
  eventType : String
  severity : String
  /-- the `identifier` detail field: `this.hashData(identifier)` -/
  identifier : List Char
  endpoint : List Char
  requestCount : Nat
  limit : Nat
  deriving Repr, DecidableEq

abbrev RLState := List (List Char × List Int)

def checkRateLimit (maxRequestsPerMinute : Nat) (requestCounts : RLState)
    (identifier endpoint : List Char) (now : Int) :
    RateLimitResult × RLState × Option RateLimitAudit :=
  let key := identifier ++ '-' :: endpoint
  let windowStart : Int := now - 60000
  let requests := (alookup requestCounts key).getD []
  let requests := requests.filter (fun t => windowStart < t)
  if maxRequestsPerMinute ≤ requests.length then
    (⟨false, 0, windowStart + 60000⟩, requestCounts,
     some ⟨"RATE_LIMIT_EXCEEDED", "high", hashData identifier, endpoint,
           requests.length, maxRequestsPerMinute⟩)
  else
    let requests := requests ++ [now]
    (⟨true, maxRequestsPerMinute - requests.length, windowStart + 60000⟩,
     aset requestCounts key requests, none)

/-! ### The `rateLimit` middleware (HIPAA audit middleware, lines 170–205)

`const identifier = req.sessionId || req.ip;` then
`checkRateLimit(identifier, endpoint)` with the endpoint class from
`getEndpointCategory(req.url)`. -/

structure RLRequest where
  sessionId : Option (List Char)
  ip : List Char
  url : List Char

/-- `getEndpointCategory` (lines 365–370) -/
def getEndpointCategory (url : List Char) : List Char :=
  if strIncludes url "/medical-chat".data then "medical_chat".data
  else if strIncludes url "/image-analysis".data then "image_analysis".data
  else if strIncludes url "/diagnosis".data then "diagnosis".data
  else "general".data

/-- the identifier the middleware passes to `checkRateLimit` -/
def rateLimitIdentifier (req : RLRequest) : List Char :=
  match req.sessionId with
  | some sid => sid
  | none => req.ip

/-- one pass of the `rateLimit` middleware against the service state -/
def rateLimitMiddleware (maxReq : Nat) (st : RLState) (req : RLRequest)
    (now : Int) : RateLimitResult × RLState × Option RateLimitAudit :=
  checkRateLimit maxReq st (rateLimitIdentifier req)
    (getEndpointCategory req.url) now

/-- the map key `` `${identifier}-${endpoint}` `` used for the request -/
def rateLimitKey (req : RLRequest) : List Char :=
  rateLimitIdentifier req ++ '-' :: getEndpointCategory req.url

/-! ### Sessions: `createMedicalSession` / `validateMedicalSession`
(hipaa-compliance.service.js lines 65–151)

A session token is a JWT signing `{sessionId, type, exp}` where
`exp = Math.floor(Date.now()/1000) + sessionTimeout/1000` (seconds).
`jwt.verify` (the `jsonwebtoken` library) checks the signature and throws
`TokenExpiredError('jwt expired')` when `Math.floor(now/1000) >= exp`.
The session record separately stores `expiresAt = now + sessionTimeout`
in milliseconds, checked by `new Date() > new Date(session.expiresAt)`.
Times are `ℕ` milliseconds since the epoch. -/

def sessionTimeout : Nat := 30 * 60 * 1000

structure SessionData where
  created : Nat
  lastActivity : Nat
  userAgentHash : List Char
  ipAddressHash : List Char
  expiresAt : Nat
  isActive : Bool
  deactivatedAt : Option Nat
  deriving Repr, DecidableEq

/-- model of the signed token: `sigValid` is whether `jwt.verify`'s
signature check passes; `exp` is the embedded expiry in whole seconds -/
structure JwtToken where
  sessionId : List Char
  exp : Nat
  sigValid : Bool
  deriving Repr, DecidableEq

abbrev SessionStore := List (List Char × SessionData)

/-- `createMedicalSession` at time `now` for a fresh id: the stored record
and the issued token -/
def createMedicalSession (sessionId : List Char) (userAgent ip : List Char)
    (now : Nat) : SessionData × JwtToken :=
  (⟨now, now, hashData userAgent, hashData ip, now + sessionTimeout, true, none⟩,
   ⟨sessionId, now / 1000 + sessionTimeout / 1000, true⟩)

/-- `deactivateSession` (lines 432–443) -/
def deactivateSession (store : SessionStore) (sessionId : List Char)
    (now : Nat) : SessionStore :=
  match alookup store sessionId with
  | none => store
  | some s => aset store sessionId { s with isActive := false, deactivatedAt := some now }

inductive ValidateOutcome where
  /-- `{valid: true, sessionId, session}` -/
  | valid (sessionId : List Char)
  /-- `{valid: false, error}` with the thrown error's message -/
  | invalid (error : String)
  deriving Repr, DecidableEq

/-- `validateMedicalSession(token)` at time `now`; returns the outcome and
the updated store (`lastActivity` touch, or deactivation on expiry) -/
def validateMedicalSession (store : SessionStore) (tok : JwtToken)
    (now : Nat) : ValidateOutcome × SessionStore :=
  -- jwt.verify: signature, then the embedded `exp` (second granularity)
  if !tok.sigValid then (.invalid "invalid signature", store)
  else if tok.exp ≤ now / 1000 then (.invalid "jwt expired", store)
  else
    match alookup store tok.sessionId with
    | none => (.invalid "Session not found or inactive", store)
    | some session =>
      if !session.isActive then (.invalid "Session not found or inactive", store)
      else if session.expiresAt < now then
        (.invalid "Session expired", deactivateSession store tok.sessionId now)
      else
        (.valid tok.sessionId,
         aset store tok.sessionId { session with lastActivity := now })

/-! ### The intent classifier `MedicalIntentAnalyzer`
(backend/utils/medical-intent.util.js)

Pure function of (message, uploaded file descriptors, patient context).
Scores are `ℚ`; intent tags, specialties and priorities are the string
literals of the source. -/

structure IntentData where
  keywords : List String
  mcpTools : List String
  specialty : String
  priority : String

/-- `this.medicalIntents` (lines 267–377), in object-literal order -/
def medicalIntents : List (String × IntentData) :=
  [("RADIOLOGY_ANALYSIS",
    ⟨["x-ray", "xray", "ct scan", "ct-scan", "mri", "chest film", "radiograph",
      "mammogram", "bone scan"],
     ["image_analysis", "dicom_processing"], "radiology", "high"⟩),
   ("DERMATOLOGY_ANALYSIS",
    ⟨["skin lesion", "rash", "mole", "dermatology", "skin cancer", "melanoma",
      "dermatitis", "eczema"],
     ["image_analysis", "dermoscopy_analysis"], "dermatology", "high"⟩),
   ("PATHOLOGY_ANALYSIS",
    ⟨["biopsy", "histology", "pathology slide", "tissue sample", "cytology",
      "histopathology"],
     ["image_analysis", "pathology_analysis"], "pathology", "high"⟩),
   ("DIFFERENTIAL_DIAGNOSIS",
    ⟨["differential", "diagnosis", "what could this be", "possible conditions",
      "differential diagnosis", "ddx"],
     ["pubmed_search", "medical_guidelines", "diagnostic_criteria"], "general", "high"⟩),
   ("SYMPTOM_ANALYSIS",
    ⟨["symptoms", "presents with", "patient has", "complains of",
      "clinical presentation", "signs and symptoms"],
     ["symptom_checker", "diagnostic_criteria", "medical_guidelines"], "general", "medium"⟩),
   ("TREATMENT_OPTIONS",
    ⟨["treatment", "therapy", "management", "how to treat", "therapeutic options",
      "intervention"],
     ["treatment_guidelines", "drug_interactions", "clinical_trials"], "general", "high"⟩),
   ("DRUG_INTERACTION",
    ⟨["drug interaction", "medication", "contraindication", "side effects",
      "adverse reactions", "pharmacology"],
     ["drug_interactions", "medication_guide", "adverse_events"], "pharmacology", "high"⟩),
   ("LITERATURE_SEARCH",
    ⟨["research", "studies", "papers", "evidence", "meta-analysis",
      "systematic review", "literature"],
     ["pubmed_search", "literature_search", "citation_analysis"], "research", "medium"⟩),
   ("CLINICAL_TRIALS",
    ⟨["clinical trial", "experimental treatment", "trial eligibility",
      "research study", "enrollment"],
     ["clinical_trials_search", "eligibility_check", "recruitment_info"],
     "research", "medium"⟩),
   ("GUIDELINES_LOOKUP",
    ⟨["guidelines", "protocol", "standard of care", "recommendations",
      "best practices", "clinical pathway"],
     ["guidelines_search", "medical_protocols", "standard_care"], "general", "medium"⟩),
   ("RARE_DISEASE",
    ⟨["rare disease", "uncommon", "orphan disease", "zebra diagnosis",
      "genetic disorder"],
     ["rare_disease_db", "genetic_analysis", "orphan_drugs"], "genetics", "high"⟩),
   ("EMERGENCY_ASSESSMENT",
    ⟨["emergency", "urgent", "acute", "critical", "life-threatening", "stat",
      "code blue"],
     ["emergency_protocols", "triage_guidelines", "acute_care"],
     "emergency_medicine", "critical"⟩),
   ("CARDIOLOGY_ANALYSIS",
    ⟨["ecg", "ekg", "cardiac", "heart", "cardiovascular", "chest pain", "myocardial"],
     ["cardiology_guidelines", "ecg_analysis", "cardiac_risk"], "cardiology", "high"⟩),
   ("NEUROLOGY_ANALYSIS",
    ⟨["neurological", "brain", "seizure", "stroke", "headache", "neurologic", "cns"],
     ["neurology_guidelines", "neuro_imaging", "neurological_exam"], "neurology", "high"⟩),
   ("ONCOLOGY_ANALYSIS",
    ⟨["cancer", "oncology", "tumor", "malignancy", "chemotherapy", "radiation",
      "metastasis"],
     ["oncology_guidelines", "cancer_staging", "treatment_protocols"], "oncology", "high"⟩)]

/-- `this.urgencyLevels` (lines 386–391): priority ranks, lower = more urgent -/
def urgencyRank : String → Option Nat
  | "critical" => some 1
  | "high" => some 2
  | "medium" => some 3
  | "low" => some 4
  | _ => none

/-- `if (this.urgencyLevels[intent.priority] < this.urgencyLevels[analysis.urgencyLevel])`
(a comparison with `undefined` is false in JavaScript) -/
def urgencyUpdate (cur p : String) : String :=
  match urgencyRank p, urgencyRank cur with
  | some a, some b => if a < b then p else cur
  | _, _ => cur

/-- `normalizeMessage` (lines 468–474): lowercase, `[^\w\s-]` → space,
collapse whitespace runs, trim -/
def collapseGo : Bool → List Char → List Char
  | _, [] => []
  | prevSpace, c :: cs =>
    if isJsSpace c then
      if prevSpace then collapseGo true cs else ' ' :: collapseGo true cs
    else c :: collapseGo false cs

def trimStr (s : List Char) : List Char :=
  ((s.dropWhile isJsSpace).reverse.dropWhile isJsSpace).reverse

def normalizeMessage (message : List Char) : List Char :=
  let lowered := lowerStr message
  let replaced := lowered.map (fun c =>
    if isWordChar c || isJsSpace c || c == '-' then c else ' ')
  trimStr (collapseGo false replaced)

/-- an uploaded-file descriptor: `originalname` and declared `mimetype` -/
structure UploadedFile where
  originalname : Option (List Char)
  mimetype : Option (List Char)

structure ImageIntent where
  intent : String
  mcpTools : List String
  specialty : String
  priority : String
  deriving Repr, DecidableEq

/-- `analyzeImageIntent` (lines 479–530): scan the files in order; per file
check DICOM, then radiology, dermatology, pathology filename substrings;
return at the first file matching any group, else the default
`MEDICAL_IMAGE_ANALYSIS` intent -/
def analyzeImageIntent : List UploadedFile → ImageIntent
  | [] => ⟨"MEDICAL_IMAGE_ANALYSIS", ["image_analysis"], "general", "medium"⟩
  | file :: rest =>
    let fileName := lowerStr (file.originalname.getD [])
    let mimeType := lowerStr (file.mimetype.getD [])
    if strIncludes fileName ".dcm".data || strIncludes mimeType "dicom".data then
      ⟨"RADIOLOGY_ANALYSIS", ["image_analysis", "dicom_processing"], "radiology", "high"⟩
    else if strIncludes fileName "xray".data || strIncludes fileName "ct".data ||
            strIncludes fileName "mri".data then
      ⟨"RADIOLOGY_ANALYSIS", ["image_analysis"], "radiology", "high"⟩
    else if strIncludes fileName "dermoscopy".data || strIncludes fileName "skin".data then
      ⟨"DERMATOLOGY_ANALYSIS", ["image_analysis", "dermoscopy_analysis"],
       "dermatology", "high"⟩
    else if strIncludes fileName "pathology".data || strIncludes fileName "biopsy".data then
      ⟨"PATHOLOGY_ANALYSIS", ["image_analysis", "pathology_analysis"],
       "pathology", "high"⟩
    else analyzeImageIntent rest

structure DetectedIntent where
  name : String
  mcpTools : List String
  specialty : String
  priority : String
  matchScore : ℚ
  matchedKeywords : List String

/-- stable insertion into a descending-by-`matchScore` list (the result of
a stable sort with comparator `b.matchScore - a.matchScore`) -/
def insertDesc (x : DetectedIntent) : List DetectedIntent → List DetectedIntent
  | [] => [x]
  | y :: ys =>
    if y.matchScore < x.matchScore then x :: y :: ys else y :: insertDesc x ys

/-- the per-intent body of `analyzeTextIntents`'s forEach: keep the tag
when some keyword occurs in the message, with match score
`keywordMatches.length / intentData.keywords.length` (see
`mkRat_eq_natDiv`) -/
def textIntentStep (normalizedMessage : List Char) (acc : List DetectedIntent)
    (entry : String × IntentData) : List DetectedIntent :=
  let kwMatches := entry.2.keywords.filter
    (fun kw => strIncludes normalizedMessage kw.data)
  if kwMatches.length > 0 then
    acc ++ [⟨entry.1, entry.2.mcpTools, entry.2.specialty, entry.2.priority,
            mkRat kwMatches.length entry.2.keywords.length, kwMatches⟩]
  else acc

/-- `analyzeTextIntents` (lines 535–559) -/
def analyzeTextIntents (normalizedMessage : List Char) : List DetectedIntent :=
  let detected := medicalIntents.foldl (textIntentStep normalizedMessage) []
  detected.foldl (fun acc x => insertDesc x acc) []

structure ContextFactors where
  hasPatientData : Bool
  hasSymptoms : Bool
  hasMedications : Bool
  hasTimeReference : Bool
  hasUrgency : Bool
  hasImageReference : Bool
  deriving Repr, DecidableEq

/-- a case-insensitive `/a|b|…/i.test(message)` of literal alternatives -/
def anyIncl (message : List Char) (kws : List String) : Bool :=
  kws.any (fun k => strIncludes (lowerStr message) k.data)

/-- `analyzeContextFactors` (lines 564–575), applied to the *raw* message -/
def analyzeContextFactors (message : List Char) (patientContextKeys : List String) :
    ContextFactors :=
  ⟨patientContextKeys.length > 0,
   anyIncl message ["symptom", "pain", "ache", "discomfort", "problem"],
   anyIncl message ["medication", "drug", "pill", "tablet", "prescription"],
   anyIncl message ["acute", "chronic", "sudden", "gradual", "recent", "ongoing"],
   anyIncl message ["urgent", "emergency", "immediate", "stat", "critical"],
   anyIncl message ["image", "picture", "scan", "photo", "x-ray", "mri", "ct"]⟩

/-- `countMedicalTerms` (lines 610–620) -/
def countMedicalTerms (message : List Char) : Nat :=
  (["diagnosis", "symptoms", "treatment", "medication", "patient", "clinical",
    "medical", "disease", "condition", "syndrome", "disorder", "therapy",
    "prescription", "dosage", "side effects", "contraindication", "pathology"]
   : List String).countP (fun term => strIncludes (lowerStr message) term.data)

/-- `message.split(' ').length`: one more than the number of `' '` characters -/
def splitSpaceLen (message : List Char) : Nat := message.count ' ' + 1

/-- `calculateConfidence` (lines 580–605), with `message` the normalized
message: 0.4 if any intent was detected, +0.2 if an image upload co-occurs
with image-reference text, +0.1 for more than one intent, plus
`min(medicalDensity * 0.3, 0.3)`, capped by `min(confidence, 1.0)` -/
def calculateConfidence (detectedIntentsLen : Nat) (hasImageUpload : Bool)
    (hasImageReference : Bool) (message : List Char) : ℚ :=
  let confidence : ℚ := 0
  let confidence := if detectedIntentsLen > 0 then confidence + mkRat 4 10
                    else confidence
  let confidence := if hasImageUpload && hasImageReference then confidence + mkRat 2 10
                    else confidence
  let confidence := if detectedIntentsLen > 1 then confidence + mkRat 1 10
                    else confidence
  let medicalDensity : ℚ :=
    ratDiv (natQ (countMedicalTerms message)) (natQ (splitSpaceLen message))
  let confidence := confidence + jsMin (medicalDensity * mkRat 3 10) (mkRat 3 10)
  jsMin confidence (natQ 1)

structure Recommendation where
  type : String
  message : String
  priority : String
  deriving Repr, DecidableEq

structure IntentAnalysis where
  detectedIntents : List String
  requiredMCPTools : List String
  medicalSpecialty : String
  urgencyLevel : String
  confidence : ℚ
  hasImageUpload : Bool
  contextFactors : ContextFactors
  recommendations : List Recommendation

/-- `Set.prototype.add` preserving insertion order -/
def addTool (tools : List String) (t : String) : List String :=
  if t ∈ tools then tools else tools ++ [t]

/-- `generateRecommendations` (lines 625–665) -/
def generateRecommendations (a : IntentAnalysis) : List Recommendation :=
  (if a.urgencyLevel = "critical" then
    [⟨"URGENT_ACTION",
      "This query indicates a potential emergency. Consider immediate medical attention.",
      "critical"⟩]
   else []) ++
  (if a.hasImageUpload then
    [⟨"IMAGE_ANALYSIS",
      "Medical image detected. Analysis will include imaging assessment.",
      "high"⟩]
   else []) ++
  (if a.requiredMCPTools.contains "drug_interactions" then
    [⟨"DRUG_SAFETY",
      "Drug interaction check will be performed for medication safety.",
      "high"⟩]
   else []) ++
  (if a.medicalSpecialty ≠ "general" then
    [⟨"SPECIALTY_CONSULTATION",
      "Consider " ++ a.medicalSpecialty ++
        " specialist consultation for specialized care.",
      "medium"⟩]
   else [])

/-- the per-text-intent update of `analyzeMedicalIntent`'s forEach
(lines 426–439) -/
def applyTextIntent (a : IntentAnalysis) (intent : DetectedIntent) : IntentAnalysis :=
  let a := { a with detectedIntents := a.detectedIntents ++ [intent.name] }
  let a := { a with requiredMCPTools := intent.mcpTools.foldl addTool a.requiredMCPTools }
  let a := if intent.specialty ≠ "general" && a.medicalSpecialty = "general" then
             { a with medicalSpecialty := intent.specialty }
           else a
  { a with urgencyLevel := urgencyUpdate a.urgencyLevel intent.priority }

/-- `analyzeMedicalIntent` (lines 397–463).  The `catch` branch returning
`getDefaultAnalysis()` is unreachable for string inputs and is not
modelled. -/
def analyzeMedicalIntent (userMessage : List Char) (uploadedFiles : List UploadedFile)
    (patientContextKeys : List String) : IntentAnalysis :=
  let a : IntentAnalysis :=
    ⟨[], [], "general", "medium", 0, uploadedFiles.length > 0,
     analyzeContextFactors userMessage patientContextKeys, []⟩
  let normalizedMessage := normalizeMessage userMessage
  -- check for uploaded medical images first
  let a :=
    if uploadedFiles.length > 0 then
      let imageIntent := analyzeImageIntent uploadedFiles
      { a with detectedIntents := a.detectedIntents ++ [imageIntent.intent],
               requiredMCPTools := imageIntent.mcpTools.foldl addTool a.requiredMCPTools,
               medicalSpecialty := imageIntent.specialty,
               urgencyLevel := imageIntent.priority }
    else a
  -- analyze text for medical intents
  let a := (analyzeTextIntents normalizedMessage).foldl applyTextIntent a
  let conf := calculateConfidence a.detectedIntents.length a.hasImageUpload
    a.contextFactors.hasImageReference normalizedMessage
  let a := { a with confidence := conf }
  { a with recommendations := generateRecommendations a }

/-! ### The LLM adapter `MedicalAIService` (backend/services/medical-ai.service.js)

`generateMedicalResponse` (lines 81–136) drives the primary/fallback
control flow.  A provider is modelled as `Option (Except String String)`:
`none` when the client was never initialized (missing API key), otherwise
the deterministic outcome of calling it — `.error msg` when the call
rejects (including the `Promise.race` timeout rejections `'Gemini
timeout'` / `'Groq timeout'`), `.ok text` when it resolves with `text`.
`generateGeminiResponse` and `generateGroqResponse` re-throw every
rejection (lines 154–157, 188–191), so a rejection propagates to the
outer `catch`, which returns `generateSafetyResponse(error.message)`.
Call counts record how many times each provider was invoked. -/

structure AIEnv where
  /-- `this.modelPreference = process.env.AI_MODEL_PREFERENCE || 'gemini'` -/
  modelPreference : String
  /-- `this.geminiModel` and the outcome of `generateContent` -/
  gemini : Option (Except String String)
  /-- `this.groqClient` and the outcome of `chat.completions.create` -/
  groq : Option (Except String String)
  /-- `this.medicalDisclaimerRequired` -/
  medicalDisclaimerRequired : Bool

structure CallCounts where
  gemini : Nat
  groq : Nat
  deriving Repr, DecidableEq

/-- `generateGeminiResponse` (lines 141–158): returns the response text or
re-throws the rejection (`catch (error) { …; throw error; }`).  Call
sites are guarded by `this.geminiModel`. -/
def callGemini (env : AIEnv) : Except String String :=
  match env.gemini with
  | some outcome => outcome
  | none => .error "gemini model unavailable"

/-- `generateGroqResponse` (lines 163–192): re-throws rejections, and also
throws `'No response from Groq'` when the completion text is falsy. -/
def callGroq (env : AIEnv) : Except String String :=
  match env.groq with
  | some (.ok text) => if text = "" then .error "No response from Groq" else .ok text
  | some (.error e) => .error e
  | none => .error "groq client unavailable"

def isFalsyStr : Option String → Bool
  | none => true
  | some s => s = ""

/-- the `let response; if … else if …; if (!response && …) …` body of
`generateMedicalResponse` (lines 91–109): primary attempt according to
`modelPreference`, then the two `if (!response && client)` fallbacks.  A
`.error` aborts the whole `try` body (the helper re-throws).  The second
component counts provider invocations. -/
def tryGenerate (env : AIEnv) : Except String (Option String) × CallCounts :=
  let prim : Except String (Option String) × CallCounts :=
    if env.modelPreference == "gemini" && env.gemini.isSome then
      ((callGemini env).map some, ⟨1, 0⟩)
    else if env.modelPreference == "groq" && env.groq.isSome then
      ((callGroq env).map some, ⟨0, 1⟩)
    else (.ok none, ⟨0, 0⟩)
  match prim with
  | (.error e, c) => (.error e, c)
  | (.ok response, c) =>
    let second : Except String (Option String) × CallCounts :=
      if isFalsyStr response && env.groq.isSome then
        ((callGroq env).map some, ⟨c.gemini, c.groq + 1⟩)
      else (.ok response, c)
    match second with
    | (.error e, c2) => (.error e, c2)
    | (.ok response2, c2) =>
      if isFalsyStr response2 && env.gemini.isSome then
        ((callGemini env).map some, ⟨c2.gemini + 1, c2.groq⟩)
      else (.ok response2, c2)

/-- `extractSection` (lines 529–536): split into sentences at `/[.!?]+/`,
keep those containing one of the keywords (case-insensitively), join with
`'. '` and trim -/
def isSentenceSep (c : Char) : Bool := c == '.' || c == '!' || c == '?'

def splitSentencesGo : Bool → List Char → List Char → List (List Char)
  | _, cur, [] => [cur.reverse]
  | prevSep, cur, c :: cs =>
    if isSentenceSep c then
      if prevSep then splitSentencesGo true cur cs
      else cur.reverse :: splitSentencesGo true [] cs
    else splitSentencesGo false (c :: cur) cs

def splitSentences (s : List Char) : List (List Char) :=
  (splitSentencesGo false [] s).reverse.reverse

def extractSection (text : List Char) (keywords : List String) : List Char :=
  trimStr (List.intercalate ". ".data
    ((splitSentences text).filter (fun sentence =>
      keywords.any (fun kw => strIncludes (lowerStr sentence) kw.data))))

/-- the `structure` object built by `extractStructuredData` (lines 515–524) -/
structure TextStructured where
  summary : List Char
  recommendations : List Char
  safety : List Char
  evidence : List Char
  deriving Repr, DecidableEq

def extractStructuredData (response : List Char) : TextStructured :=
  ⟨extractSection response ["summary", "overview"],
   extractSection response ["recommendation", "suggested", "next step"],
   extractSection response ["safety", "warning", "caution"],
   extractSection response ["evidence", "citation", "reference"]⟩

/-- `calculateTextConfidence` (lines 494–510) -/
def calculateTextConfidence (response : List Char) : ℚ :=
  let confidence : ℚ := mkRat 3 10
  let termCount := (["diagnosis", "treatment", "recommendation", "evidence",
                     "clinical"] : List String).countP
    (fun term => strIncludes (lowerStr response) term.data)
  let confidence := confidence + ratDiv (natQ termCount) (natQ 5) * mkRat 3 10
  let confidence :=
    if anyIncl response ["citation", "reference", "study", "research"] then
      confidence + mkRat 2 10
    else confidence
  jsMin confidence (mkRat 8 10)

structure ParsedResponse where
  content : String
  structuredData : TextStructured
  analysisType : String
  confidence : ℚ
  deriving Repr, DecidableEq

/-- `parseMedicalResponse` (lines 418–444) on the text path.  (The JSON
branch — `JSON.parse` of a `/\{[\s\S]*\}/` match — is not modelled; the
model outputs considered here carry no top-level JSON object, and none of
the claims concern the structured-success payload.) -/
def parseMedicalResponse (response : String) (analysisType : String) :
    ParsedResponse :=
  ⟨response, extractStructuredData response.data, analysisType,
   calculateTextConfidence response.data⟩

/-- `getMedicalDisclaimer` (lines 582–588), text field -/
def medicalDisclaimerText : String :=
  "This information is for educational purposes only and is not intended as a substitute for professional medical advice, diagnosis, or treatment. Always seek the advice of your physician or other qualified health provider with any questions you may have regarding a medical condition."

/-- the object returned by `generateSafetyResponse` (lines 541–561);
`summary`, `recommendations` and `safetyConsiderations` are the fields of
its `structuredData` -/
structure SafetyResponse where
  content : String
  error : String
  summary : String
  recommendations : List String
  safetyConsiderations : List String
  disclaimerText : String
  deriving Repr, DecidableEq

def generateSafetyResponse (errorMessage : String) : SafetyResponse :=
  { content := "I apologize, but I\x27m unable to provide medical analysis at this time due to a technical issue.",
    error := errorMessage,
    summary := "Medical analysis unavailable",
    recommendations :=
      ["Please consult with a healthcare professional",
       "Try your query again in a few moments",
       "Contact technical support if the issue persists"],
    safetyConsiderations :=
      ["This system is not a substitute for professional medical advice",
       "Seek immediate medical attention for urgent concerns",
       "Always verify medical information with qualified healthcare providers"],
    disclaimerText := medicalDisclaimerText }

/-- the value returned by the service's `generateMedicalResponse`: a parsed
response (with the disclaimer attached when required) or the safety
response built in the `catch` -/
inductive AIResponse where
  | parsed (p : ParsedResponse) (withDisclaimer : Bool)
  | safety (s : SafetyResponse)
  deriving Repr, DecidableEq

/-- `generateMedicalResponse` (lines 81–136): the whole `try` body, with
the `catch` mapped to `generateSafetyResponse(error.message)`.  The
function is total: it returns, never raises.  Also yields how many calls
were made to each provider. -/
def generateMedicalResponse (env : AIEnv) (analysisType : String) :
    AIResponse × CallCounts :=
  match tryGenerate env with
  | (.error e, counts) => (.safety (generateSafetyResponse e), counts)
  | (.ok response, counts) =>
    if isFalsyStr response then
      -- `if (!response) throw new Error('All AI models failed …')`
      (.safety (generateSafetyResponse "All AI models failed to generate response"),
       counts)
    else
      (.parsed (parseMedicalResponse (response.getD "") analysisType)
         env.medicalDisclaimerRequired, counts)

/-- `aiResponse.confidence`: `undefined` on the safety object -/
def aiConfidence : AIResponse → Option ℚ
  | .parsed p _ => some p.confidence
  | .safety _ => none

def aiContent : AIResponse → String
  | .parsed p _ => p.content
  | .safety s => s.content

/-- `aiResponse.structuredData`, as placed into
`response.medicalAnalysis.aiAnalysis` by the controller -/
inductive StructuredPayload where
  | fromText (t : TextStructured)
  | fromSafety (summary : String) (recommendations : List String)
      (safetyConsiderations : List String)
  deriving Repr, DecidableEq

def structuredOf : AIResponse → StructuredPayload
  | .parsed p _ => .fromText p.structuredData
  | .safety s => .fromSafety s.summary s.recommendations s.safetyConsiderations

/-! ### The chat controller (backend/controllers/medical-chat.controller.js) -/

/-- `executeMCPTools` (lines 342–404): the settled tool promises, keyed by
the short tool label; only fulfilled results enter `mcpResults`
(`Promise.allSettled` + the `status === 'fulfilled'` filter) -/
def executeMCPTools (settled : List (String × Except String String)) :
    List (String × String) :=
  settled.foldl (fun acc entry =>
    match entry.2 with
    | .ok v => acc ++ [(entry.1, v)]
    | .error _ => acc) []

/-- the analysis-type selection of the controller's
`generateMedicalResponse` (lines 411–419) -/
def getAnalysisType (intent : IntentAnalysis) (hasImageAnalysis : Bool) : String :=
  if intent.detectedIntents.contains "DIFFERENTIAL_DIAGNOSIS" then
    "differential_diagnosis"
  else if intent.detectedIntents.contains "TREATMENT_OPTIONS" then
    "treatment_planning"
  else if hasImageAnalysis then "image_analysis"
  else "general"

structure SafetyAlert where
  type : String
  level : String
  message : String
  action : String
  deriving Repr, DecidableEq

/-- `generateSafetyAlerts` (lines 462–506).  `aiResponse.confidence < 0.6`
is false when `confidence` is `undefined` (the safety response). -/
def generateSafetyAlerts (intent : IntentAnalysis) (aiConf : Option ℚ) :
    List SafetyAlert :=
  (if intent.urgencyLevel = "critical" then
    [⟨"EMERGENCY", "critical",
      "This query indicates a potential medical emergency. Seek immediate medical attention.",
      "Call emergency services or go to the nearest emergency room immediately"⟩]
   else []) ++
  (if intent.hasImageUpload then
    [⟨"IMAGE_ANALYSIS", "high",
      "Medical image analysis requires professional review.",
      "Consult with a qualified radiologist or specialist for definitive interpretation"⟩]
   else []) ++
  (if intent.requiredMCPTools.contains "drug_interactions" then
    [⟨"MEDICATION_SAFETY", "high",
      "Drug interaction information provided.",
      "Verify all medication interactions with your pharmacist or healthcare provider"⟩]
   else []) ++
  (match aiConf with
   | some c =>
     if c < mkRat 6 10 then
       [⟨"LOW_CONFIDENCE", "medium",
         "AI analysis has lower confidence for this query.",
         "Consider seeking additional medical opinions or specialized consultation"⟩]
     else []
   | none => [])

/-- the JSON body assembled by `handleMedicalChat` (lines 105–124) -/
structure ChatBody where
  response : String
  aiAnalysis : StructuredPayload
  mcpResults : List (String × String)
  /-- `aiResponse.confidence || 0.5` (`||`, so `0` and `undefined` both
  yield `0.5`) -/
  confidence : ℚ
  recommendations : List Recommendation
  safetyAlerts : List SafetyAlert
  mcpTools : List String

/-- outcome of `handleMedicalChat`: `res.status(400).json(...)` for a
missing message, otherwise `res.json(response)` (status 200).  (The
`catch` → 500 path cannot fire in the model: every modelled step is
total.) -/
inductive HttpResult where
  | badRequest (error code : String)
  | okChat (body : ChatBody)

def statusOf : HttpResult → Nat
  | .badRequest _ _ => 400
  | .okChat _ => 200

/-- `handleMedicalChat` (lines 30–155) for a request carrying `message`,
an optional uploaded file, patient-context keys, the settled evidence-tool
outcomes, and the LLM environment -/
def handleMedicalChat (message : String) (uploadedFile : Option UploadedFile)
    (patientContextKeys : List String)
    (settled : List (String × Except String String)) (env : AIEnv) : HttpResult :=
  if trimStr message.data = [] then
    .badRequest "Message is required" "MISSING_MESSAGE"
  else
    let intentAnalysis := analyzeMedicalIntent message.data
      (match uploadedFile with | some f => [f] | none => []) patientContextKeys
    let mcpResults := executeMCPTools settled
    let analysisType := getAnalysisType intentAnalysis uploadedFile.isSome
    let aiResponse := (generateMedicalResponse env analysisType).1
    .okChat
      { response := aiContent aiResponse,
        aiAnalysis := structuredOf aiResponse,
        mcpResults := mcpResults,
        confidence :=
          match aiConfidence aiResponse with
          | some c => if c = 0 then mkRat 5 10 else c
          | none => mkRat 5 10,
        recommendations := intentAnalysis.recommendations,
        safetyAlerts := generateSafetyAlerts intentAnalysis (aiConfidence aiResponse),
        mcpTools := intentAnalysis.requiredMCPTools }

/-! ### Bridging lemmas

The executable definitions use the kernel-reducible forms `mkRat`,
`ratDiv`, `jsMin` and `natQ`; these lemmas identify them with the
ordinary `ℚ` operations. -/

theorem natQ_eq_cast (n : Nat) : natQ n = (n : ℚ) := by
  simp [natQ]

theorem mkRat_eq_natDiv (m k : Nat) : (mkRat m k : ℚ) = (m : ℚ) / (k : ℚ) := by
  rcases eq_or_ne k 0 with h | h
  · subst h; simp
  · rw [Rat.mkRat_eq_div]
    push_cast
    ring

theorem ratDiv_eq_div (a b : ℚ) : ratDiv a b = a / b := rfl

theorem jsMin_eq_min (a b : ℚ) : jsMin a b = min a b := by
  by_cases h : a ≤ b <;> simp [jsMin, min_def, h]

/-! ### Helper lemmas: rate limiter -/

theorem alookup_aset (m : List (List Char × α)) (k : List Char) (v : α) :
    alookup (aset m k v) k = some v := by
  induction m with
  | nil => simp [aset, alookup]
  | cons kv rest ih =>
    by_cases h : kv.1 = k
    · simp [aset, alookup, h]
    · simpa [aset, alookup, h] using ih

/-- process a sequence of requests for one (identifier, endpoint) pair,
returning the final state and each request's `allowed` flag -/
def runRateLimit (maxReq : Nat) (st : RLState) (identifier endpoint : List Char) :
    List Int → RLState × List Bool
  | [] => (st, [])
  | t :: ts =>
    let step := checkRateLimit maxReq st identifier endpoint t
    let rest := runRateLimit maxReq step.2.1 identifier endpoint ts
    (rest.1, step.1.allowed :: rest.2)

theorem runRateLimit_all_accept (N : Nat) (id ep : List Char) (u : Int) :
    ∀ (ts : List Int) (st : RLState) (pre : List Int),
    (alookup st (id ++ '-' :: ep)).getD [] = pre →
    (∀ t ∈ pre, u - 60000 < t ∧ t ≤ u) →
    (∀ t ∈ ts, u - 60000 < t ∧ t ≤ u) →
    pre.length + ts.length ≤ N →
    (runRateLimit N st id ep ts).2 = List.replicate ts.length true ∧
    (alookup (runRateLimit N st id ep ts).1 (id ++ '-' :: ep)).getD [] = pre ++ ts := by
  intro ts
  induction ts with
  | nil =>
    intro st pre hst _ _ _
    simp [runRateLimit, hst]
  | cons t ts ih =>
    intro st pre hst hpre hts hlen
    have htm : u - 60000 < t ∧ t ≤ u := hts t (by simp)
    have hfilter : pre.filter (fun x => decide (t - 60000 < x)) = pre := by
      apply List.filter_eq_self.mpr
      intro x hx
      have hxw := hpre x hx
      have : t - 60000 ≤ u - 60000 := by omega
      simp only [decide_eq_true_eq]
      omega
    have hlt : pre.length < N := by
      simp at hlen
      omega
    have hstep : checkRateLimit N st id ep t =
        (⟨true, N - (pre ++ [t]).length, t - 60000 + 60000⟩,
         aset st (id ++ '-' :: ep) (pre ++ [t]), none) := by
      simp only [checkRateLimit, hst, hfilter]
      rw [if_neg (by simpa using Nat.not_le.mpr hlt)]
    have hpre' : ∀ x ∈ pre ++ [t], u - 60000 < x ∧ x ≤ u := by
      intro x hx
      rcases List.mem_append.mp hx with h | h
      · exact hpre x h
      · simp at h
        subst h
        exact htm
    have hrec := ih (aset st (id ++ '-' :: ep) (pre ++ [t])) (pre ++ [t])
      (by rw [alookup_aset]; rfl) hpre'
      (fun x hx => hts x (by simp [hx]))
      (by simp at hlen ⊢; omega)
    refine ⟨?_, ?_⟩
    · simp only [runRateLimit, hstep]
      simp [hrec.1, List.replicate_succ]
    · simp only [runRateLimit, hstep]
      simpa using hrec.2

/-! ### Helper lemmas: PHI scrub -/

theorem sanitizePHIGo_noMatch (text token : List Char) :
    ∀ (pats : List (String × Rx)) (acc : List Char) (types : List String),
    (∀ p ∈ pats, Rx.hasMatch p.2 text = false) →
    (sanitizePHIGo text token pats acc types).sanitized = acc := by
  intro pats
  induction pats with
  | nil => intro acc types _; rfl
  | cons p rest ih =>
    intro acc types h
    have hp : Rx.hasMatch p.2 text = false := h p (by simp)
    simp only [sanitizePHIGo, hp, Bool.false_eq_true, if_false]
    exact ih acc (types) (fun q hq => h q (by simp [hq]))

/-! ### Helper lemmas: intent classifier -/

theorem analyzeImageIntent_priority (files : List UploadedFile) :
    (analyzeImageIntent files).priority = "high" ∨
    (analyzeImageIntent files).priority = "medium" := by
  induction files with
  | nil => right; rfl
  | cons f rest ih =>
    unfold analyzeImageIntent
    dsimp only
    repeat' split
    · left; rfl
    · left; rfl
    · left; rfl
    · left; rfl
    · exact ih

theorem mem_insertDesc {x y : DetectedIntent} {l : List DetectedIntent} :
    y ∈ insertDesc x l → y = x ∨ y ∈ l := by
  induction l with
  | nil =>
    intro h
    simp only [insertDesc, List.mem_singleton] at h
    exact Or.inl h
  | cons z zs ih =>
    intro h
    simp only [insertDesc] at h
    by_cases hc : z.matchScore < x.matchScore
    · rw [if_pos hc] at h
      rcases List.mem_cons.mp h with h' | h'
      · exact Or.inl h'
      · exact Or.inr h'
    · rw [if_neg hc] at h
      rcases List.mem_cons.mp h with h' | h'
      · exact Or.inr (by simp [h'])
      · rcases ih h' with h'' | h''
        · exact Or.inl h''
        · exact Or.inr (by simp [h''])

theorem mem_foldl_insertDesc {y : DetectedIntent} :
    ∀ (l acc : List DetectedIntent),
    y ∈ l.foldl (fun acc x => insertDesc x acc) acc → y ∈ l ∨ y ∈ acc := by
  intro l
  induction l with
  | nil => intro acc h; right; exact h
  | cons z zs ih =>
    intro acc h
    rcases ih (insertDesc z acc) h with h' | h'
    · left; simp [h']
    · rcases mem_insertDesc h' with h'' | h''
      · left; simp [h'']
      · right; exact h''

theorem mem_textIntentStep {y : DetectedIntent} {m : List Char}
    {acc : List DetectedIntent} {entry : String × IntentData} :
    y ∈ textIntentStep m acc entry → y ∈ acc ∨ y.priority = entry.2.priority := by
  intro h
  unfold textIntentStep at h
  dsimp only at h
  split at h
  · rcases List.mem_append.mp h with h' | h'
    · exact Or.inl h'
    · simp only [List.mem_singleton] at h'
      subst h'
      exact Or.inr rfl
  · exact Or.inl h

theorem mem_detected_foldl {y : DetectedIntent} (m : List Char) :
    ∀ (l : List (String × IntentData)) (acc : List DetectedIntent),
    y ∈ l.foldl (textIntentStep m) acc →
    y ∈ acc ∨ ∃ entry ∈ l, y.priority = entry.2.priority := by
  intro l
  induction l with
  | nil => intro acc h; left; exact h
  | cons e es ih =>
    intro acc h
    rcases ih _ h with h' | h'
    · rcases mem_textIntentStep h' with h'' | h''
      · left; exact h''
      · right; exact ⟨e, by simp, h''⟩
    · rcases h' with ⟨entry, hmem, hpri⟩
      right
      exact ⟨entry, by simp [hmem], hpri⟩

theorem analyzeTextIntents_priority (m : List Char) :
    ∀ d ∈ analyzeTextIntents m,
    d.priority = "critical" ∨ d.priority = "high" ∨ d.priority = "medium" := by
  intro d hd
  unfold analyzeTextIntents at hd
  rcases mem_foldl_insertDesc _ _ hd with h | h
  · rcases mem_detected_foldl m medicalIntents [] h with h' | h'
    · simp at h'
    · rcases h' with ⟨entry, hmem, hpri⟩
      rw [hpri]
      have htable : ∀ e ∈ medicalIntents,
          e.2.priority = "critical" ∨ e.2.priority = "high" ∨
          e.2.priority = "medium" := by decide
      exact htable entry hmem
  · simp at h

theorem applyTextIntent_urgency (a : IntentAnalysis) (d : DetectedIntent) :
    (applyTextIntent a d).urgencyLevel = urgencyUpdate a.urgencyLevel d.priority := by
  unfold applyTextIntent
  dsimp only
  split <;> rfl

theorem urgencyUpdate_cases (cur p : String) :
    urgencyUpdate cur p = cur ∨ urgencyUpdate cur p = p := by
  unfold urgencyUpdate
  rcases urgencyRank p with _ | a <;> rcases urgencyRank cur with _ | b
  · exact Or.inl rfl
  · exact Or.inl rfl
  · exact Or.inl rfl
  · dsimp only
    split
    · exact Or.inr rfl
    · exact Or.inl rfl

theorem foldl_applyTextIntent_urgency :
    ∀ (l : List DetectedIntent) (a : IntentAnalysis),
    (a.urgencyLevel = "critical" ∨ a.urgencyLevel = "high" ∨
      a.urgencyLevel = "medium") →
    (∀ d ∈ l, d.priority = "critical" ∨ d.priority = "high" ∨
      d.priority = "medium") →
    ((l.foldl applyTextIntent a).urgencyLevel = "critical" ∨
     (l.foldl applyTextIntent a).urgencyLevel = "high" ∨
     (l.foldl applyTextIntent a).urgencyLevel = "medium") := by
  intro l
  induction l with
  | nil => intro a ha _; exact ha
  | cons d ds ih =>
    intro a ha hl
    apply ih
    · rw [applyTextIntent_urgency]
      rcases urgencyUpdate_cases a.urgencyLevel d.priority with h | h
      · rw [h]; exact ha
      · rw [h]; exact hl d (by simp)
    · intro x hx; exact hl x (by simp [hx])

/-! ### The claims -/

/-- C10: For every input to the intent classifier, the returned urgency
level is one of `critical`, `high`, or `medium`, and never `low`: the
analysis starts at `medium`, the image intent carries `high` or `medium`,
urgency updates only move to a strictly higher priority, and no intent
tag in the table carries priority `low`. -/
theorem c10_urgency_never_low (msg : List Char) (files : List UploadedFile)
    (pck : List String) :
    (analyzeMedicalIntent msg files pck).urgencyLevel
        ∈ (["critical", "high", "medium"] : List String) ∧
    (analyzeMedicalIntent msg files pck).urgencyLevel ≠ "low" := by
  have key : (analyzeMedicalIntent msg files pck).urgencyLevel = "critical" ∨
      (analyzeMedicalIntent msg files pck).urgencyLevel = "high" ∨
      (analyzeMedicalIntent msg files pck).urgencyLevel = "medium" := by
    unfold analyzeMedicalIntent
    dsimp only
    split
    · apply foldl_applyTextIntent_urgency
      · dsimp only
        rcases analyzeImageIntent_priority files with h | h
        · right; left; exact h
        · right; right; exact h
      · exact analyzeTextIntents_priority _
    · apply foldl_applyTextIntent_urgency
      · right; right; rfl
      · exact analyzeTextIntents_priority _
  constructor
  · rcases key with h | h | h <;> simp [h]
  · rcases key with h | h | h <;> simp [h]

/-- C2 (code bug): with the primary provider configured as Gemini and its
call failing (e.g. by timeout), and a healthy Groq fallback configured,
`generateMedicalResponse` returns the safety response for the primary's
error and never invokes the fallback: the rejection thrown by
`generateGeminiResponse` propagates past the `if (!response && this.groqClient)`
fallback step straight to the outer `catch`.  The Groq call count is `0`,
contradicting "it then calls the secondary (fallback) provider before
giving up". -/
theorem c2_primary_error_skips_fallback :
    generateMedicalResponse
      ⟨"gemini", some (.error "Gemini timeout"), some (.ok "Fallback answer"), true⟩
      "general"
    = (.safety (generateSafetyResponse "Gemini timeout"), ⟨1, 0⟩) := rfl

/-- C7: for every (identifier, endpoint-class) key, starting from a fresh
limiter, the N requests of a 60-second window are all accepted (the N-th
included), the stored timestamps are exactly those N accepted in-window
events, and the (N+1)-th request inside the same window is rejected with
`allowed = false` and `remaining = 0`. -/
theorem c7_rate_limit_boundary (N : Nat) (identifier endpoint : List Char)
    (ts : List Int) (u : Int) (hlen : ts.length = N)
    (hwin : ∀ t ∈ ts, u - 60000 < t ∧ t ≤ u) :
    (runRateLimit N [] identifier endpoint ts).2 = List.replicate N true ∧
    (alookup (runRateLimit N [] identifier endpoint ts).1
      (identifier ++ '-' :: endpoint)).getD [] = ts ∧
    (checkRateLimit N (runRateLimit N [] identifier endpoint ts).1
      identifier endpoint u).1.allowed = false ∧
    (checkRateLimit N (runRateLimit N [] identifier endpoint ts).1
      identifier endpoint u).1.remaining = 0 := by
  have hrun := runRateLimit_all_accept N identifier endpoint u ts [] []
    (by simp [alookup]) (by simp) hwin (by simp [hlen])
  have hstore : (alookup (runRateLimit N [] identifier endpoint ts).1
      (identifier ++ '-' :: endpoint)).getD [] = ts := by
    simpa using hrun.2
  have hfilter : ts.filter (fun x => decide (u - 60000 < x)) = ts := by
    apply List.filter_eq_self.mpr
    intro x hx
    simpa using (hwin x hx).1
  have hreject : (checkRateLimit N (runRateLimit N [] identifier endpoint ts).1
      identifier endpoint u).1 = ⟨false, 0, u - 60000 + 60000⟩ := by
    simp only [checkRateLimit, hstore, hfilter]
    rw [if_pos (by rw [hlen])]
  refine ⟨by simpa [hlen] using hrun.1, hstore, ?_, ?_⟩
  · rw [hreject]
  · rw [hreject]

/-- C7 witness: three requests at 100, 30000 and 59000 ms inside the
window of a fourth at 60099 ms, with cap `N = 3`: all three accepted, the
fourth rejected with `remaining = 0`. -/
theorem c7_rate_limit_boundary_witness :
    ([(100 : Int), 30000, 59000].length = 3 ∧
      ∀ t ∈ ([100, 30000, 59000] : List Int), (60099 : Int) - 60000 < t ∧ t ≤ 60099) ∧
    ((runRateLimit 3 [] "session1".data "medical_chat".data [100, 30000, 59000]).2
        = List.replicate 3 true ∧
     (alookup (runRateLimit 3 [] "session1".data "medical_chat".data
        [100, 30000, 59000]).1 ("session1".data ++ '-' :: "medical_chat".data)).getD []
        = [100, 30000, 59000] ∧
     (checkRateLimit 3 (runRateLimit 3 [] "session1".data "medical_chat".data
        [100, 30000, 59000]).1 "session1".data "medical_chat".data 60099).1.allowed
        = false ∧
     (checkRateLimit 3 (runRateLimit 3 [] "session1".data "medical_chat".data
        [100, 30000, 59000]).1 "session1".data "medical_chat".data 60099).1.remaining
        = 0) :=
  ⟨⟨by decide, by decide⟩,
   c7_rate_limit_boundary 3 "session1".data "medical_chat".data
     [100, 30000, 59000] 60099 (by decide) (by decide)⟩

/-- C9 counterexample: the PHI scrub is not idempotent.  On the 15-digit
input `555123456712345` the phone pattern's replacement (the first ten
digits) exposes a ZIP-shaped five-digit run that the first pass did not
detect on the original text; the second scrub redacts it, so
`scrub(scrub(x)) ≠ scrub(x)`. -/
theorem c9_scrub_not_idempotent :
    scrub (scrub "555123456712345".data) ≠ scrub "555123456712345".data := by
  decide

/-- C9 amended: the scrub is idempotent exactly on inputs whose scrubbed
output no longer matches any PHI pattern: whenever no pattern matches
`scrub x`, a second scrub leaves it unchanged. -/
theorem c9_scrub_idempotent_of_noMatch (x : List Char)
    (h : ∀ p ∈ phiPatterns, Rx.hasMatch p.2 (scrub x) = false) :
    scrub (scrub x) = scrub x := by
  unfold scrub sanitizePHI
  exact sanitizePHIGo_noMatch (scrub x) _ phiPatterns (scrub x) [] h

/-- C9 witness: on `John Smith` the first scrub redacts the name bigram
and the result matches no pattern, so the second scrub is the identity. -/
theorem c9_scrub_idempotent_witness :
    (∀ p ∈ phiPatterns, Rx.hasMatch p.2 (scrub "John Smith".data) = false) ∧
    scrub (scrub "John Smith".data) = scrub "John Smith".data :=
  ⟨by decide, c9_scrub_idempotent_of_noMatch "John Smith".data (by decide)⟩

/-! ### Helper lemmas: LLM adapter and controller -/

theorem executeMCPTools_go_all_error :
    ∀ (settled : List (String × Except String String))
      (acc : List (String × String)),
    (∀ e ∈ settled, ∃ m, e.2 = Except.error m) →
    settled.foldl (fun acc entry =>
      match entry.2 with
      | .ok v => acc ++ [(entry.1, v)]
      | .error _ => acc) acc = acc := by
  intro settled
  induction settled with
  | nil => intro acc _; rfl
  | cons e es ih =>
    intro acc h
    obtain ⟨m, hm⟩ := h e (by simp)
    simp only [List.foldl_cons, hm]
    exact ih acc (fun x hx => h x (by simp [hx]))

theorem executeMCPTools_all_error (settled : List (String × Except String String))
    (h : ∀ e ∈ settled, ∃ m, e.2 = Except.error m) :
    executeMCPTools settled = [] :=
  executeMCPTools_go_all_error settled [] h

theorem generateMedicalResponse_all_fail (env : AIEnv) (analysisType : String)
    (hg : ∀ o, env.gemini = some o → ∃ m, o = Except.error m)
    (hq : ∀ o, env.groq = some o → ∃ m, o = Except.error m) :
    ∃ e, (generateMedicalResponse env analysisType).1
      = .safety (generateSafetyResponse e) := by
  rcases hgem : env.gemini with _ | og
  · rcases hgrq : env.groq with _ | oq
    · -- neither client configured: `response` stays falsy, the final throw
      exact ⟨"All AI models failed to generate response",
        by simp [generateMedicalResponse, tryGenerate, hgem, hgrq, isFalsyStr, Except.map]⟩
    · obtain ⟨m2, hm2⟩ := hq oq hgrq
      subst hm2
      by_cases hp2 : env.modelPreference == "groq"
      · exact ⟨m2, by simp [generateMedicalResponse, tryGenerate, callGroq,
          hgem, hgrq, hp2, isFalsyStr, Except.map]⟩
      · exact ⟨m2, by simp [generateMedicalResponse, tryGenerate, callGroq,
          hgem, hgrq, hp2, isFalsyStr, Except.map]⟩
  · obtain ⟨m1, hm1⟩ := hg og hgem
    subst hm1
    by_cases hp1 : env.modelPreference == "gemini"
    · exact ⟨m1, by simp [generateMedicalResponse, tryGenerate, callGemini,
        hgem, hp1, isFalsyStr, Except.map]⟩
    · rcases hgrq : env.groq with _ | oq
      · exact ⟨m1, by simp [generateMedicalResponse, tryGenerate, callGemini,
          hgem, hgrq, hp1, isFalsyStr, Except.map]⟩
      · obtain ⟨m2, hm2⟩ := hq oq hgrq
        subst hm2
        by_cases hp2 : env.modelPreference == "groq"
        · exact ⟨m2, by simp [generateMedicalResponse, tryGenerate, callGemini,
            callGroq, hgem, hgrq, hp1, hp2, isFalsyStr, Except.map]⟩
        · exact ⟨m2, by simp [generateMedicalResponse, tryGenerate, callGemini,
            callGroq, hgem, hgrq, hp1, hp2, isFalsyStr, Except.map]⟩

/-- C1: for every chat request in which every evidence source and every
configured LLM provider fail, the response-generation path returns — never
raises: `generateMedicalResponse` and the handler are total functions —
the fixed-shape SafetyResponse, whose structured summary is the literal
`"Medical analysis unavailable"` and whose recommendations include
`"Please consult with a healthcare professional"`, and the HTTP layer
returns it with status 200. -/
theorem c1_all_fail_safety_response_200 (message : String)
    (uploadedFile : Option UploadedFile) (pck : List String)
    (settled : List (String × Except String String)) (env : AIEnv)
    (hmsg : trimStr message.data ≠ [])
    (hsettled : ∀ e ∈ settled, ∃ m, e.2 = Except.error m)
    (hg : ∀ o, env.gemini = some o → ∃ m, o = Except.error m)
    (hq : ∀ o, env.groq = some o → ∃ m, o = Except.error m) :
    ∃ body errMsg,
      handleMedicalChat message uploadedFile pck settled env = .okChat body ∧
      statusOf (handleMedicalChat message uploadedFile pck settled env) = 200 ∧
      body.mcpResults = [] ∧
      body.aiAnalysis = .fromSafety (generateSafetyResponse errMsg).summary
        (generateSafetyResponse errMsg).recommendations
        (generateSafetyResponse errMsg).safetyConsiderations ∧
      (generateSafetyResponse errMsg).summary = "Medical analysis unavailable" ∧
      "Please consult with a healthcare professional"
        ∈ (generateSafetyResponse errMsg).recommendations := by
  obtain ⟨e, he⟩ := generateMedicalResponse_all_fail env
    (getAnalysisType (analyzeMedicalIntent message.data
      (match uploadedFile with | some f => [f] | none => []) pck)
      uploadedFile.isSome) hg hq
  unfold handleMedicalChat
  rw [if_neg hmsg]
  refine ⟨_, e, rfl, rfl, ?_, ?_, rfl, by simp [generateSafetyResponse]⟩
  · dsimp only
    exact executeMCPTools_all_error settled hsettled
  · dsimp only
    rw [he]
    rfl

/-- C1 witness: no tool settled, neither provider configured, nonempty
message. -/
theorem c1_all_fail_safety_response_200_witness :
    (trimStr "chest pain".data ≠ [] ∧
      (∀ e ∈ ([] : List (String × Except String String)), ∃ m, e.2 = Except.error m)) ∧
    (∃ body errMsg,
      handleMedicalChat "chest pain" none [] [] ⟨"gemini", none, none, true⟩
        = .okChat body ∧
      statusOf (handleMedicalChat "chest pain" none [] []
        ⟨"gemini", none, none, true⟩) = 200 ∧
      body.mcpResults = [] ∧
      body.aiAnalysis = .fromSafety (generateSafetyResponse errMsg).summary
        (generateSafetyResponse errMsg).recommendations
        (generateSafetyResponse errMsg).safetyConsiderations ∧
      (generateSafetyResponse errMsg).summary = "Medical analysis unavailable" ∧
      "Please consult with a healthcare professional"
        ∈ (generateSafetyResponse errMsg).recommendations) :=
  ⟨⟨by decide, by simp⟩,
   c1_all_fail_safety_response_200 "chest pain" none [] []
     ⟨"gemini", none, none, true⟩ (by decide) (by simp)
     (fun o h => by simp at h) (fun o h => by simp at h)⟩

/-! ### Session validation (C3) -/

/-- C3 counterexample: a session created 1 ms after a second boundary has
`expiresAt = 1800001`, but validating at `expiresAt − 1 = 1800000` already
fails: the token's embedded expiry was truncated to whole seconds
(`Math.floor(Date.now()/1000) + 1800 = 1800`), and the JWT check rejects
when `floor(now/1000) ≥ exp`.  The claim says validation succeeds at
`expiry − 1ms`. -/
theorem c3_counterexample :
    (createMedicalSession "s1".data "ua".data "ip".data 1).1.expiresAt = 1800001 ∧
    (validateMedicalSession
      [("s1".data, (createMedicalSession "s1".data "ua".data "ip".data 1).1)]
      (createMedicalSession "s1".data "ua".data "ip".data 1).2 1800000).1
      = .invalid "jwt expired" :=
  ⟨rfl, rfl⟩

/-- C3 amended: validation rejects whenever the bound session is inactive,
and rejects a valid-signature token whose embedded expiry is in the past;
for a session created on an exact second boundary, validation succeeds at
`expiresAt − 1` ms and fails at `expiresAt + 1` ms with the expired-token
failure (`'jwt expired'`).  For sessions created off a second boundary the
token expires up to a second before `expiresAt` (see the counterexample),
so the session-expiry branch (`'Session expired'`) is not what fires at
the boundary. -/
theorem c3_amended_validation :
    (∀ (store : SessionStore) (tok : JwtToken) (now : Nat) (session : SessionData),
      alookup store tok.sessionId = some session → session.isActive = false →
      ∀ sid, (validateMedicalSession store tok now).1 ≠ .valid sid) ∧
    (∀ (store : SessionStore) (tok : JwtToken) (now : Nat),
      tok.sigValid = true → tok.exp * 1000 ≤ now →
      (validateMedicalSession store tok now).1 = .invalid "jwt expired") ∧
    (∀ (sid ua ip : List Char) (c : Nat), c % 1000 = 0 →
      (validateMedicalSession [(sid, (createMedicalSession sid ua ip c).1)]
        (createMedicalSession sid ua ip c).2 (c + sessionTimeout - 1)).1
        = .valid sid ∧
      (validateMedicalSession [(sid, (createMedicalSession sid ua ip c).1)]
        (createMedicalSession sid ua ip c).2 (c + sessionTimeout + 1)).1
        = .invalid "jwt expired") := by
  refine ⟨?_, ?_, ?_⟩
  · intro store tok now session hlk hina sid
    unfold validateMedicalSession
    rcases hsig : tok.sigValid with _ | _
    · simp
    · simp only [Bool.not_true, Bool.false_eq_true, if_false]
      split
      · simp
      · rw [hlk]
        simp [hina]
  · intro store tok now hsig hexp
    have hdiv : tok.exp ≤ now / 1000 :=
      (Nat.le_div_iff_mul_le (by norm_num)).mpr hexp
    unfold validateMedicalSession
    rw [hsig]
    simp only [Bool.not_true, Bool.false_eq_true, if_false]
    rw [if_pos hdiv]
  · intro sid ua ip c hc
    constructor
    · show (validateMedicalSession [(sid, (createMedicalSession sid ua ip c).1)]
        ⟨sid, c / 1000 + sessionTimeout / 1000, true⟩ (c + sessionTimeout - 1)).1
        = .valid sid
      unfold validateMedicalSession
      rw [if_neg (by simp)]
      rw [if_neg (by
        show ¬ (c / 1000 + sessionTimeout / 1000 ≤ (c + sessionTimeout - 1) / 1000)
        unfold sessionTimeout
        omega)]
      show ((match alookup [(sid, (createMedicalSession sid ua ip c).1)] sid with
        | none => _ | some session => _ : ValidateOutcome × SessionStore)).1 = _
      rw [show alookup [(sid, (createMedicalSession sid ua ip c).1)] sid
          = some (createMedicalSession sid ua ip c).1 by simp [alookup]]
      show ((if !true then _
        else if (createMedicalSession sid ua ip c).1.expiresAt < c + sessionTimeout - 1
          then _ else _ : ValidateOutcome × SessionStore)).1 = _
      rw [if_neg (by simp)]
      rw [if_neg (by
        show ¬ (c + sessionTimeout < c + sessionTimeout - 1)
        unfold sessionTimeout
        omega)]
    · show (validateMedicalSession [(sid, (createMedicalSession sid ua ip c).1)]
        ⟨sid, c / 1000 + sessionTimeout / 1000, true⟩ (c + sessionTimeout + 1)).1
        = .invalid "jwt expired"
      unfold validateMedicalSession
      rw [if_neg (by simp)]
      rw [if_pos (by
        show c / 1000 + sessionTimeout / 1000 ≤ (c + sessionTimeout + 1) / 1000
        unfold sessionTimeout
        omega)]

/-- C3 witness: a session created at `c = 5000` (a second boundary) is
valid at `1804999` and expired at `1805001`; an inactive session is never
valid; a token whose embedded expiry has passed is rejected. -/
theorem c3_amended_validation_witness :
    ((5000 : Nat) % 1000 = 0 ∧
     (validateMedicalSession
        [("s".data, (createMedicalSession "s".data "u".data "i".data 5000).1)]
        (createMedicalSession "s".data "u".data "i".data 5000).2 1804999).1
        = .valid "s".data ∧
     (validateMedicalSession
        [("s".data, (createMedicalSession "s".data "u".data "i".data 5000).1)]
        (createMedicalSession "s".data "u".data "i".data 5000).2 1805001).1
        = .invalid "jwt expired") ∧
    (∀ sid, (validateMedicalSession
        [("x".data, ⟨0, 0, [], [], 99999999, false, some 7⟩)]
        ⟨"x".data, 99999, true⟩ 5).1 ≠ .valid sid) ∧
    (validateMedicalSession [] ⟨"x".data, 3, true⟩ 3000).1
      = .invalid "jwt expired" := by
  refine ⟨⟨rfl, ?_⟩, ?_, ?_⟩
  · exact (c3_amended_validation.2.2 "s".data "u".data "i".data 5000 rfl)
  · exact fun sid => c3_amended_validation.1
      [("x".data, ⟨0, 0, [], [], 99999999, false, some 7⟩)]
      ⟨"x".data, 99999, true⟩ 5 ⟨0, 0, [], [], 99999999, false, some 7⟩
      (by simp [alookup]) rfl sid
  · exact c3_amended_validation.2.1 [] ⟨"x".data, 3, true⟩ 3000 rfl (by norm_num)

/-! ### Rate-limiter identifier (C4) -/

/-- C4 counterexample: for a sessionless request from `203.0.113.7`, the
identifier placed in the rate-limiter key is the *raw* IP — the key is
literally `"203.0.113.7-medical_chat"` — contradicting both "otherwise the
hashed peer address" and "a raw IP address never appears in the
rate-limiter key". -/
theorem c4_counterexample :
    rateLimitKey ⟨none, "203.0.113.7".data, "/api/medical-chat".data⟩
      = "203.0.113.7-medical_chat".data ∧
    strIncludes (rateLimitKey ⟨none, "203.0.113.7".data, "/api/medical-chat".data⟩)
      "203.0.113.7".data = true := by
  constructor
  · decide
  · decide

theorem hexDigit_mem (n : Nat) : hexDigit n ∈ hexDigits := by
  unfold hexDigit
  rcases lt_or_ge n hexDigits.length with h | h
  · rw [List.getD_eq_getElem _ _ h]
    exact List.getElem_mem _
  · rw [List.getD_eq_default _ _ h]
    decide

theorem toHex_all_hex (bs : List Nat) : ∀ c ∈ toHex bs, c ∈ hexDigits := by
  induction bs with
  | nil => intro c hc; simp [toHex] at hc
  | cons b rest ih =>
    intro c hc
    simp only [toHex, List.foldr_cons, List.mem_cons] at hc
    rcases hc with hc | hc | hc
    · rw [hc]; exact hexDigit_mem _
    · rw [hc]; exact hexDigit_mem _
    · exact ih c hc

theorem hashData_all_hex (s : List Char) : ∀ c ∈ hashData s, c ∈ hexDigits := by
  intro c hc
  exact toHex_all_hex _ c (List.take_subset _ _ hc)

theorem headMatches_subset :
    ∀ (sub s : List Char), headMatches sub s = true → ∀ c ∈ sub, c ∈ s := by
  intro sub
  induction sub with
  | nil => intro s _ c hc; simp at hc
  | cons p ps ih =>
    intro s h c hc
    cases s with
    | nil => simp [headMatches] at h
    | cons x xs =>
      simp only [headMatches, Bool.and_eq_true, beq_iff_eq] at h
      rcases List.mem_cons.mp hc with hc' | hc'
      · rw [hc', h.1]; simp
      · exact List.mem_cons_of_mem _ (ih xs h.2 c hc')

theorem strIncludes_subset :
    ∀ (s sub : List Char), strIncludes s sub = true → ∀ c ∈ sub, c ∈ s := by
  intro s
  induction s with
  | nil =>
    intro sub h c hc
    cases sub with
    | nil => simp at hc
    | cons p ps => simp [strIncludes, headMatches] at h
  | cons x xs ih =>
    intro sub h c hc
    simp only [strIncludes, Bool.or_eq_true] at h
    rcases h with h | h
    · exact headMatches_subset sub (x :: xs) h c hc
    · exact List.mem_cons_of_mem _ (ih sub h c hc)

theorem hex_no_dot_substring (s sub : List Char)
    (hhex : ∀ c ∈ s, c ∈ hexDigits) (hdot : '.' ∈ sub) :
    strIncludes s sub = false := by
  by_contra h
  have h' := strIncludes_subset s sub (by
    cases hs : strIncludes s sub
    · exact absurd hs h
    · rfl) '.' hdot
  have := hhex '.' h'
  simp [hexDigits] at this

/-- C4 amended: the identifier in the rate-limiter key is the session id
when a session is present and otherwise the *raw* peer address (which
therefore appears in the key); the rate-limit audit record, by contrast,
carries only `hashData(identifier)` — 16 lowercase-hex characters — so no
dotted address (any string containing a `'.'`) ever appears in the audit
record's identifier field. -/
theorem c4_amended_identifier (req : RLRequest) (maxReq : Nat) (st : RLState)
    (now : Int) :
    (∀ sid, req.sessionId = some sid → rateLimitIdentifier req = sid) ∧
    (req.sessionId = none → rateLimitIdentifier req = req.ip) ∧
    (∀ ev, (rateLimitMiddleware maxReq st req now).2.2 = some ev →
      ev.identifier = hashData (rateLimitIdentifier req) ∧
      ∀ sub, '.' ∈ sub → strIncludes ev.identifier sub = false) := by
  refine ⟨?_, ?_, ?_⟩
  · intro sid h
    simp [rateLimitIdentifier, h]
  · intro h
    simp [rateLimitIdentifier, h]
  · intro ev hev
    unfold rateLimitMiddleware checkRateLimit at hev
    dsimp only at hev
    split at hev
    · simp only [Option.some.injEq] at hev
      subst hev
      refine ⟨rfl, ?_⟩
      intro sub hdot
      exact hex_no_dot_substring _ sub (hashData_all_hex _) hdot
    · simp at hev

/-- C4 witness: a sessionless request from `203.0.113.7` already at its
cap: the identifier is the raw IP, and the emitted audit event's
identifier field is the 16-hex-character hash, which cannot contain the
dotted address. -/
theorem c4_amended_identifier_witness :
    ((⟨none, "203.0.113.7".data, "/api/medical-chat".data⟩ : RLRequest).sessionId
        = none ∧
      rateLimitIdentifier ⟨none, "203.0.113.7".data, "/api/medical-chat".data⟩
        = "203.0.113.7".data) ∧
    (∀ ev, (rateLimitMiddleware 0 [] ⟨none, "203.0.113.7".data,
        "/api/medical-chat".data⟩ 1000).2.2 = some ev →
      ev.identifier = hashData "203.0.113.7".data ∧
      ∀ sub, '.' ∈ sub → strIncludes ev.identifier sub = false) :=
  ⟨⟨rfl, (c4_amended_identifier ⟨none, "203.0.113.7".data,
      "/api/medical-chat".data⟩ 0 [] 1000).2.1 rfl⟩,
   fun ev hev =>
     (c4_amended_identifier ⟨none, "203.0.113.7".data,
       "/api/medical-chat".data⟩ 0 [] 1000).2.2 ev hev⟩

/-! ### DICOM image-first rule (C5) -/

/-- the DICOM marker of the image scan: filename containing `.dcm` or MIME
containing `dicom` (the first per-file check of `analyzeImageIntent`) -/
def dicomMarker (f : UploadedFile) : Bool :=
  strIncludes (lowerStr (f.originalname.getD [])) ".dcm".data ||
  strIncludes (lowerStr (f.mimetype.getD [])) "dicom".data

/-- whether a file matches any of `analyzeImageIntent`'s per-file checks -/
def fileHeuristic (f : UploadedFile) : Bool :=
  dicomMarker f ||
  (strIncludes (lowerStr (f.originalname.getD [])) "xray".data ||
   strIncludes (lowerStr (f.originalname.getD [])) "ct".data ||
   strIncludes (lowerStr (f.originalname.getD [])) "mri".data) ||
  (strIncludes (lowerStr (f.originalname.getD [])) "dermoscopy".data ||
   strIncludes (lowerStr (f.originalname.getD [])) "skin".data) ||
  (strIncludes (lowerStr (f.originalname.getD [])) "pathology".data ||
   strIncludes (lowerStr (f.originalname.getD [])) "biopsy".data)

/-- C5 counterexample: with `skin.png` listed before `scan.dcm`, the file
scan returns `DERMATOLOGY_ANALYSIS` at the first file and never reaches
the DICOM file, so no radiology intent is emitted although a file matches
the DICOM marker. -/
theorem c5_counterexample :
    dicomMarker ⟨some "scan.dcm".data, some "application/dicom".data⟩ = true ∧
    (analyzeImageIntent
      [⟨some "skin.png".data, some "image/png".data⟩,
       ⟨some "scan.dcm".data, some "application/dicom".data⟩]).intent
      = "DERMATOLOGY_ANALYSIS" ∧
    "RADIOLOGY_ANALYSIS" ∉ (analyzeMedicalIntent []
      [⟨some "skin.png".data, some "image/png".data⟩,
       ⟨some "scan.dcm".data, some "application/dicom".data⟩] []).detectedIntents := by
  refine ⟨by decide, by decide, ?_⟩
  decide

theorem applyTextIntent_detectedIntents (a : IntentAnalysis) (d : DetectedIntent) :
    (applyTextIntent a d).detectedIntents = a.detectedIntents ++ [d.name] := by
  unfold applyTextIntent
  dsimp only
  split <;> rfl

theorem mem_foldl_applyTextIntent_detected {x : String} :
    ∀ (l : List DetectedIntent) (a : IntentAnalysis),
    x ∈ a.detectedIntents → x ∈ (l.foldl applyTextIntent a).detectedIntents := by
  intro l
  induction l with
  | nil => intro a h; exact h
  | cons d ds ih =>
    intro a h
    apply ih
    rw [applyTextIntent_detectedIntents]
    exact List.mem_append_left _ h

theorem fileHeuristic_false_elim {f : UploadedFile} (h : fileHeuristic f = false) :
    (strIncludes (lowerStr (f.originalname.getD [])) ".dcm".data ||
      strIncludes (lowerStr (f.mimetype.getD [])) "dicom".data) = false ∧
    (strIncludes (lowerStr (f.originalname.getD [])) "xray".data ||
      strIncludes (lowerStr (f.originalname.getD [])) "ct".data ||
      strIncludes (lowerStr (f.originalname.getD [])) "mri".data) = false ∧
    (strIncludes (lowerStr (f.originalname.getD [])) "dermoscopy".data ||
      strIncludes (lowerStr (f.originalname.getD [])) "skin".data) = false ∧
    (strIncludes (lowerStr (f.originalname.getD [])) "pathology".data ||
      strIncludes (lowerStr (f.originalname.getD [])) "biopsy".data) = false := by
  unfold fileHeuristic dicomMarker at h
  simp only [Bool.or_eq_false_iff] at h
  simp only [Bool.or_eq_false_iff]
  exact ⟨⟨h.1.1.1.1, h.1.1.1.2⟩, h.1.1.2, h.1.2, h.2⟩

/-- C5 amended: the file scan returns at the *first* file matching any
heuristic; the DICOM check precedes the others per file.  Hence whenever
some file matches the DICOM marker and no earlier file matches any
heuristic, the scan yields `RADIOLOGY_ANALYSIS` with the DICOM tools,
independently of all later files (short-circuit), and the classifier's
detected intents include `RADIOLOGY_ANALYSIS`. -/
theorem c5_dicom_image_first (pre : List UploadedFile) (f : UploadedFile)
    (rest : List UploadedFile)
    (hpre : ∀ g ∈ pre, fileHeuristic g = false)
    (hf : dicomMarker f = true) :
    analyzeImageIntent (pre ++ f :: rest)
      = ⟨"RADIOLOGY_ANALYSIS", ["image_analysis", "dicom_processing"],
         "radiology", "high"⟩ ∧
    ∀ (msg : List Char) (pck : List String),
      "RADIOLOGY_ANALYSIS"
        ∈ (analyzeMedicalIntent msg (pre ++ f :: rest) pck).detectedIntents := by
  have himg : analyzeImageIntent (pre ++ f :: rest)
      = ⟨"RADIOLOGY_ANALYSIS", ["image_analysis", "dicom_processing"],
         "radiology", "high"⟩ := by
    induction pre with
    | nil =>
      rw [List.nil_append]
      unfold analyzeImageIntent
      dsimp only
      rw [if_pos (by unfold dicomMarker at hf; exact hf)]
    | cons g gs ih =>
      have hg := fileHeuristic_false_elim (hpre g (by simp))
      show analyzeImageIntent (g :: (gs ++ f :: rest)) = _
      unfold analyzeImageIntent
      dsimp only
      rw [if_neg (by rw [hg.1]; simp), if_neg (by rw [hg.2.1]; simp),
          if_neg (by rw [hg.2.2.1]; simp), if_neg (by rw [hg.2.2.2]; simp)]
      exact ih (fun x hx => hpre x (by simp [hx]))
  refine ⟨himg, ?_⟩
  intro msg pck
  unfold analyzeMedicalIntent
  dsimp only
  rw [if_pos (by simp)]
  apply mem_foldl_applyTextIntent_detected
  rw [himg]
  simp

/-- C5 witness: `notes.txt` (no heuristic) followed by `scan.dcm`
followed by `skin.png`: the scan yields the radiology/DICOM intent and
the classifier detects `RADIOLOGY_ANALYSIS`. -/
theorem c5_dicom_image_first_witness :
    ((∀ g ∈ ([⟨some "notes.txt".data, some "text/plain".data⟩] :
        List UploadedFile), fileHeuristic g = false) ∧
      dicomMarker ⟨some "scan.dcm".data, some "application/dicom".data⟩ = true) ∧
    (analyzeImageIntent
        ([⟨some "notes.txt".data, some "text/plain".data⟩] ++
          ⟨some "scan.dcm".data, some "application/dicom".data⟩ ::
          [⟨some "skin.png".data, some "image/png".data⟩])
      = ⟨"RADIOLOGY_ANALYSIS", ["image_analysis", "dicom_processing"],
         "radiology", "high"⟩ ∧
     ∀ (msg : List Char) (pck : List String),
      "RADIOLOGY_ANALYSIS"
        ∈ (analyzeMedicalIntent msg
            ([⟨some "notes.txt".data, some "text/plain".data⟩] ++
              ⟨some "scan.dcm".data, some "application/dicom".data⟩ ::
              [⟨some "skin.png".data, some "image/png".data⟩]) pck).detectedIntents) :=
  ⟨⟨by decide, by decide⟩,
   c5_dicom_image_first [⟨some "notes.txt".data, some "text/plain".data⟩]
     ⟨some "scan.dcm".data, some "application/dicom".data⟩
     [⟨some "skin.png".data, some "image/png".data⟩] (by decide) (by decide)⟩

/-! ### Emergency safety alert (C6) -/

theorem generateSafetyAlerts_critical (intent : IntentAnalysis) (conf : Option ℚ)
    (h : intent.urgencyLevel = "critical") :
    (generateSafetyAlerts intent conf).head? = some
      ⟨"EMERGENCY", "critical",
       "This query indicates a potential medical emergency. Seek immediate medical attention.",
       "Call emergency services or go to the nearest emergency room immediately"⟩ ∧
    (generateSafetyAlerts intent conf).countP
      (fun al => al.type == "EMERGENCY") = 1 := by
  unfold generateSafetyAlerts
  rw [if_pos h]
  rcases conf with _ | c
  · dsimp only
    split_ifs <;> exact ⟨rfl, by decide⟩
  · dsimp only
    split_ifs <;> exact ⟨rfl, by decide⟩

/-- C6: for every chat response whose IntentAnalysis urgency is
`critical`, the response's SafetyAlert list contains exactly one
`EMERGENCY` entry, it is first, its level is `critical`, and its action
is the fixed emergency text. -/
theorem c6_unique_emergency_alert (message : String)
    (uploadedFile : Option UploadedFile) (pck : List String)
    (settled : List (String × Except String String)) (env : AIEnv)
    (hmsg : trimStr message.data ≠ [])
    (hcrit : (analyzeMedicalIntent message.data
      (match uploadedFile with | some f => [f] | none => []) pck).urgencyLevel
      = "critical") :
    ∃ body, handleMedicalChat message uploadedFile pck settled env = .okChat body ∧
      body.safetyAlerts.head? = some
        ⟨"EMERGENCY", "critical",
         "This query indicates a potential medical emergency. Seek immediate medical attention.",
         "Call emergency services or go to the nearest emergency room immediately"⟩ ∧
      body.safetyAlerts.countP (fun al => al.type == "EMERGENCY") = 1 := by
  unfold handleMedicalChat
  rw [if_neg hmsg]
  refine ⟨_, rfl, ?_, ?_⟩
  · exact (generateSafetyAlerts_critical _ _ hcrit).1
  · exact (generateSafetyAlerts_critical _ _ hcrit).2

/-- C6 witness: the message `critical` classifies at urgency `critical`
(via the `EMERGENCY_ASSESSMENT` tag); the response carries exactly one
emergency alert, first in the list. -/
theorem c6_unique_emergency_alert_witness :
    (trimStr "critical".data ≠ [] ∧
      (analyzeMedicalIntent "critical".data [] []).urgencyLevel = "critical") ∧
    (∃ body, handleMedicalChat "critical" none [] [] ⟨"gemini", none, none, false⟩
        = .okChat body ∧
      body.safetyAlerts.head? = some
        ⟨"EMERGENCY", "critical",
         "This query indicates a potential medical emergency. Seek immediate medical attention.",
         "Call emergency services or go to the nearest emergency room immediately"⟩ ∧
      body.safetyAlerts.countP (fun al => al.type == "EMERGENCY") = 1) :=
  ⟨⟨by decide, by decide⟩,
   c6_unique_emergency_alert "critical" none [] [] ⟨"gemini", none, none, false⟩
     (by decide) (by decide)⟩

/-! ### Confidence formula (C8) -/

/-- The confidence formula as the claim words it: the clamped-to-[0,1]
bounded sum of a 0.4 base when any intent fired, +0.2 when an image
upload and image-reference text co-occur, +0.1 when more than one intent
fired, and a medical-term-density term `min(density·0.3, 0.3)`. -/
def specConfidence (intentCount : Nat) (hasImageUpload hasImageReference : Bool)
    (normalizedMessage : List Char) : ℚ :=
  let base : ℚ := if intentCount > 0 then 0.4 else 0
  let imageBonus : ℚ := if hasImageUpload && hasImageReference then 0.2 else 0
  let multiBonus : ℚ := if intentCount > 1 then 0.1 else 0
  let density : ℚ := (countMedicalTerms normalizedMessage : ℚ) /
    (splitSpaceLen normalizedMessage : ℚ)
  let densityTerm : ℚ := min (density * 0.3) 0.3
  max 0 (min (base + imageBonus + multiBonus + densityTerm) 1)

theorem calculateConfidence_eq_spec (L : Nat) (U R : Bool) (m : List Char) :
    calculateConfidence L U R m = specConfidence L U R m := by
  unfold calculateConfidence specConfidence
  dsimp only
  have hd : ratDiv (natQ (countMedicalTerms m)) (natQ (splitSpaceLen m)) =
      (countMedicalTerms m : ℚ) / (splitSpaceLen m : ℚ) := by
    rw [ratDiv_eq_div, natQ_eq_cast, natQ_eq_cast]
  have hnn : (0:ℚ) ≤ (countMedicalTerms m : ℚ) / (splitSpaceLen m : ℚ) :=
    div_nonneg (Nat.cast_nonneg _) (Nat.cast_nonneg _)
  have hD : (0:ℚ) ≤ min ((countMedicalTerms m : ℚ) /
      (splitSpaceLen m : ℚ) * 0.3) 0.3 :=
    le_min (mul_nonneg hnn (by norm_num)) (by norm_num)
  have h04 : (mkRat 4 10 : ℚ) = 0.4 := by rw [Rat.mkRat_eq_div]; norm_num
  have h02 : (mkRat 2 10 : ℚ) = 0.2 := by rw [Rat.mkRat_eq_div]; norm_num
  have h01 : (mkRat 1 10 : ℚ) = 0.1 := by rw [Rat.mkRat_eq_div]; norm_num
  have h03 : (mkRat 3 10 : ℚ) = 0.3 := by rw [Rat.mkRat_eq_div]; norm_num
  have h1 : (natQ 1 : ℚ) = 1 := by rw [natQ_eq_cast]; norm_num
  rw [hd, h04, h02, h01, h03, h1, jsMin_eq_min, jsMin_eq_min]
  split_ifs <;>
    rw [max_eq_right (le_min (by linarith) (by norm_num))] <;>
    · congr 1
      ring

/-- C8: the classifier's returned confidence equals the clamped-to-[0,1]
bounded sum of the claim — 0.4 base when any intent fired, +0.2 for
image/image-reference co-occurrence, +0.1 for more than one intent, plus
the medical-term-density term — and the density term lies in [0, 0.3]. -/
theorem c8_confidence_bounded_sum (msg : List Char) (files : List UploadedFile)
    (pck : List String) :
    (analyzeMedicalIntent msg files pck).confidence =
      specConfidence (analyzeMedicalIntent msg files pck).detectedIntents.length
        (analyzeMedicalIntent msg files pck).hasImageUpload
        (analyzeMedicalIntent msg files pck).contextFactors.hasImageReference
        (normalizeMessage msg) ∧
    (0:ℚ) ≤ min ((countMedicalTerms (normalizeMessage msg) : ℚ) /
        (splitSpaceLen (normalizeMessage msg) : ℚ) * 0.3) 0.3 ∧
    min ((countMedicalTerms (normalizeMessage msg) : ℚ) /
        (splitSpaceLen (normalizeMessage msg) : ℚ) * 0.3) 0.3 ≤ 0.3 := by
  refine ⟨?_, ?_, min_le_right _ _⟩
  · unfold analyzeMedicalIntent
    dsimp only
    exact calculateConfidence_eq_spec _ _ _ _
  · exact le_min
      (mul_nonneg (div_nonneg (Nat.cast_nonneg _) (Nat.cast_nonneg _))
        (by norm_num))
      (by norm_num)

end MedIntel
